import Mathlib

set_option maxHeartbeats 1000000

/-!
Shallow embedding of the record classification / routing / reconciliation
pipeline of the Cargue_masivoW repository (src/estructuras), together with
proofs about the claims of its specification.

Record values are modelled as strings (the spec data model: field name to
string-or-empty).  Python string helpers (`strip`, `lower`, `upper`,
single-character `replace`) are embedded as character-list operations.
-/

namespace CargueMasivo

/-- Embedding of Python `str.strip()` (drop leading and trailing whitespace). -/
def pyStrip (s : String) : String :=
  ⟨(s.data.dropWhile Char.isWhitespace).rdropWhile Char.isWhitespace⟩

/-- Embedding of Python `str.lower()` (ASCII case folding). -/
def pyLower (s : String) : String :=
  ⟨s.data.map Char.toLower⟩

/-- Embedding of Python `str.upper()` (ASCII case folding). -/
def pyUpper (s : String) : String :=
  ⟨s.data.map Char.toUpper⟩

/-- Embedding of Python `s.startswith(pre)`. -/
def empiezaCon (s prefijo : String) : Bool :=
  prefijo.data.isPrefixOf s.data

/-- True when the needle occurs as a contiguous sublist of the haystack. -/
def esSublista (ndl : List Char) : List Char → Bool
  | [] => ndl.isEmpty
  | c :: rest => ndl.isPrefixOf (c :: rest) || esSublista ndl rest

/-- Embedding of Python `ndl in hay` for strings (substring containment). -/
def contiene (hay ndl : String) : Bool :=
  esSublista ndl.data hay.data

/-- First value bound to a key in an association-list record (a Python dict
in insertion order), if any. -/
def buscar {α : Type} (reg : List (String × α)) (k : String) : Option α :=
  match reg with
  | [] => none
  | (k0, v) :: rest => if k0 = k then some v else buscar rest k

/-- Embedding of Python `registro.get(k, '')`. -/
def buscarD (reg : List (String × String)) (k : String) : String :=
  (buscar reg k).getD ""

/-- Embedding of Python `k in registro`. -/
def tieneClave (reg : List (String × String)) (k : String) : Bool :=
  (buscar reg k).isSome

/-- Embedding of Python `s.replace(',', '.')` (single-character replacement). -/
def reemplazarComaPorPunto (s : String) : String :=
  ⟨s.data.map (fun c => if c = ',' then '.' else c)⟩

/-- True when the string is nonempty and consists of decimal digits only
(Python regex fullmatch on a digits-plus pattern). -/
def esSoloDigitos (s : String) : Bool :=
  !s.data.isEmpty && s.data.all Char.isDigit

/-- True when the string full-matches digits, a dot, then one or more zeros
(the Python pattern for an integral float such as `200067.0`). -/
def esEnteroPuntoCeros (s : String) : Bool :=
  let ds := s.data.takeWhile Char.isDigit
  let resto := s.data.dropWhile Char.isDigit
  !ds.isEmpty &&
    (match resto with
     | '.' :: zs => !zs.isEmpty && zs.all (· = '0')
     | _ => false)

/-- Integer part before the first dot (Python `s.split('.')[0]`). -/
def parteEntera (s : String) : String :=
  ⟨s.data.takeWhile (fun c => !(c == '.'))⟩

/-- Embedding of `DataUtils.normalizar_codigo_material` from
src/estructuras/services_backup_20251105_080346.py (string-input branch; the
int/float branches are unreachable for string-valued record fields). -/
def normalizarCodigoMaterial (valor : String) : String :=
  let s := pyStrip valor
  if s = "" then ""
  else
    let s2 := reemplazarComaPorPunto s
    if esSoloDigitos s2 then s2
    else if esEnteroPuntoCeros s2 then parteEntera s2
    else s

/-- Modelled from the spec: the `ESTADOS_SALUD` lookup table imported from the
missing constants module; the spec and the method docstring give the mapping
1 to BUENO, 2 to REGULAR, 3 to MALO. -/
def ESTADOS_SALUD : List (String × String) :=
  [("1", "BUENO"), ("2", "REGULAR"), ("3", "MALO")]

/-- Embedding of `EstructuraClassifier._convertir_estado_salud` from
src/estructuras/services_backup_20251105_080346.py. -/
def convertirEstadoSalud (estadoSalud : String) : String :=
  if estadoSalud = "" ∨ pyUpper (pyStrip estadoSalud) = "" ∨
     pyUpper (pyStrip estadoSalud) = "NAN" ∨ pyUpper (pyStrip estadoSalud) = "NONE" then ""
  else
    let estadoStr := pyUpper (pyStrip estadoSalud)
    let convertido := buscarD ESTADOS_SALUD estadoStr
    if convertido = "BUENO" ∨ convertido = "REGULAR" ∨ convertido = "MALO" then convertido
    else ""

/-- Modelled from the spec: the `CLASIFICACION_TIPO_POR_UC` rule table of the
missing constants module; spec and docstring give N1 to SECUNDARIO, N2/N3/N4
to PRIMARIO, default SECUNDARIO, matched as prefix patterns. -/
def REGLAS_TIPO_POR_UC : List ((String → Bool) × String) :=
  [(fun u => empiezaCon u "N1", "SECUNDARIO"),
   (fun u => empiezaCon u "N2" || empiezaCon u "N3" || empiezaCon u "N4", "PRIMARIO")]

/-- Default TYPE when no rule matches (spec: SECONDARY). -/
def TIPO_UC_DEFECTO : String := "SECUNDARIO"

/-- First rule whose pattern matches, in list order. -/
def primeraRegla (uc : String) : List ((String → Bool) × String) → Option String
  | [] => none
  | (p, t) :: rest => if p uc then some t else primeraRegla uc rest

/-- Embedding of `EstructuraClassifier._clasificar_tipo_por_uc` from
src/estructuras/services_backup_20251105_080346.py (rule tables modelled from
the spec, see `REGLAS_TIPO_POR_UC`). -/
def clasificarTipoPorUc (uc : String) : String :=
  if uc = "" then TIPO_UC_DEFECTO
  else
    match primeraRegla uc REGLAS_TIPO_POR_UC with
    | some t => t
    | none => TIPO_UC_DEFECTO

/-- Embedding of `EstructuraClassifier._clasificar_propietario` from
src/estructuras/services_backup_20251105_080346.py. -/
def clasificarPropietario (nombre : String) : String :=
  if nombre = "" then "PARTICULAR"
  else
    let l := pyUpper (pyStrip nombre)
    if contiene l "CENS" || contiene l "CENTRALES" || contiene l "ELECTRICA" then "CENS"
    else if contiene l "ESTADO" || contiene l "GOBIERNO" || contiene l "PUBLICO" ||
            contiene l "MINISTERIO" then "ESTADO"
    else if contiene l "COMPARTIDO" || contiene l "CONSORCIO" || contiene l "SOCIEDAD" then
      "COMPARTIDO"
    else "PARTICULAR"

/-- Embedding of Python `s.endswith(sufijo)`. -/
def terminaEn (s sufijo : String) : Bool :=
  sufijo.data.isSuffixOf s.data

/-- True for the seven roman-numeral characters (the character class of the
`[IVXLCDM]+` pattern in `_convertir_tipo_proyecto`). -/
def esCharRomano (c : Char) : Bool :=
  c = 'I' || c = 'V' || c = 'X' || c = 'L' || c = 'C' || c = 'D' || c = 'M'

/-- Character values of the `valores` table in `_roman_to_int`
(unknown characters count 0, as Python `dict.get(ch, 0)`). -/
def valorRomano (c : Char) : Int :=
  if c = 'I' then 1 else if c = 'V' then 5 else if c = 'X' then 10
  else if c = 'L' then 50 else if c = 'C' then 100 else if c = 'D' then 500
  else if c = 'M' then 1000 else 0

/-- Accumulator loop of `_roman_to_int`: iterate over the reversed character
list carrying (total, prev); prev is updated only on the add branch, as in
the source. -/
def romanAcum : List Char → Int × Int → Int × Int
  | [], tp => tp
  | c :: resto, (total, prev) =>
    let v := valorRomano c
    if v < prev then romanAcum resto (total - v, prev)
    else romanAcum resto (total + v, v)

/-- Embedding of `EstructuraClassifier._roman_to_int` from
src/estructuras/services_backup_20251105_080346.py. -/
def romanToInt (s : String) : Int :=
  (romanAcum (pyUpper (pyStrip s)).data.reverse (0, 0)).1

/-- Maximal runs of roman-numeral characters, left to right
(Python `re.findall(r"[IVXLCDM]+", s)`); the accumulator holds the current
run reversed. -/
def runsRomanas : List Char → List Char → List (List Char)
  | [], acum => if acum.isEmpty then [] else [acum.reverse]
  | c :: resto, acum =>
    if esCharRomano c then runsRomanas resto (c :: acum)
    else if acum.isEmpty then runsRomanas resto []
    else acum.reverse :: runsRomanas resto []

/-- Embedding of Python `max(xs, key=len)` over a possibly empty list: the
first element of maximal length, if any. -/
def maxPorLongitud (l : List (List Char)) : Option (List Char) :=
  l.foldl
    (fun best x =>
      match best with
      | none => some x
      | some b => if x.length > b.length then some x else best)
    none

/-- Modelled from the spec: the `CONVERSION_TIPO_PROYECTO` direct map of the
missing constants module; spec rule 4b gives I to T1, II to T2, III to T3,
IV to T4. -/
def CONVERSION_TIPO_PROYECTO : List (String × String) :=
  [("I", "T1"), ("II", "T2"), ("III", "T3"), ("IV", "T4")]

/-- Decimal digit characters of a natural number, most significant first. -/
def natDigitos (n : Nat) : List Char :=
  if _h : n < 10 then [Nat.digitChar n]
  else natDigitos (n / 10) ++ [Nat.digitChar (n % 10)]
decreasing_by exact Nat.div_lt_self (by omega) (by omega)

/-- Decimal rendering of a natural number (Python f-string interpolation). -/
def natToStr (n : Nat) : String :=
  ⟨natDigitos n⟩

/-- Embedding of `EstructuraClassifier._convertir_tipo_proyecto` from
src/estructuras/services_backup_20251105_080346.py (the direct map is
modelled from the spec, see `CONVERSION_TIPO_PROYECTO`). -/
def convertirTipoProyecto (tipoProyecto : String) : String :=
  if tipoProyecto = "" then tipoProyecto
  else
    let tipoLimpio := pyUpper (pyStrip tipoProyecto)
    let coincidencias := runsRomanas tipoLimpio.data []
    let romanoExtraido : String :=
      match maxPorLongitud coincidencias with
      | some r => ⟨r⟩
      | none => tipoLimpio
    match buscar CONVERSION_TIPO_PROYECTO romanoExtraido with
    | some t => t
    | none =>
      let valor := romanToInt romanoExtraido
      if valor > 0 then "T" ++ natToStr valor.toNat else tipoProyecto

/-- Modelled from the spec: the `VALOR_DEFECTO` entry of
`CONVERSION_TIPO_PROYECTO` in the missing constants module.  Spec rule 4c
(`else leave unchanged`) and rule 4b both require the generated value to be
falsy when no voltage-level mapping applies, so the default is the empty
string. -/
def TIPO_PROYECTO_VALOR_DEFECTO : String := ""

/-- Modelled from the spec: the `MAPEO_NIVEL_TENSION` table of the missing
constants module; the docstring documents the entries N3L75 to T1 and
N3L79 to T3. -/
def MAPEO_NIVEL_TENSION : List (String × String) :=
  [("N3L75", "T1"), ("N3L79", "T3")]

/-- First prefix-pattern entry (key ending in the marker letter L) matching
the cleaned voltage level, in table order. -/
def primerPatronL (nivel : String) : List (String × String) → Option String
  | [] => none
  | (patron, tp) :: resto =>
    if terminaEn patron "L" && empiezaCon nivel patron then some tp
    else primerPatronL nivel resto

/-- Embedding of
`EstructuraClassifier._generar_tipo_proyecto_desde_nivel_tension` from
src/estructuras/services_backup_20251105_080346.py (tables modelled from the
spec, see `MAPEO_NIVEL_TENSION` and `TIPO_PROYECTO_VALOR_DEFECTO`). -/
def generarTipoProyectoDesdeNivelTension (nivelTension : String) : String :=
  if nivelTension = "" then TIPO_PROYECTO_VALOR_DEFECTO
  else
    let nivelLimpio := pyUpper (pyStrip nivelTension)
    match buscar MAPEO_NIVEL_TENSION nivelLimpio with
    | some t => t
    | none =>
      match primerPatronL nivelLimpio MAPEO_NIVEL_TENSION with
      | some t => t
      | none => TIPO_PROYECTO_VALOR_DEFECTO

/-- One entry of `MAPEO_UC_MATERIAL['REGLAS_POR_PATRON']`: a prefix-anchored
regex with one capture group, modelled as a partial match function, plus the
optional `mapeo` and `alturas` tables of the entry. -/
structure ReglaPatronMaterial where
  extraer : String → Option String
  mapeo : Option (List (String × String))
  alturas : Option (List (String × List String))

/-- First code of the list present in the material catalog, if any
(the inner loop of the `alturas` tier). -/
def primerCodigoCatalogo (catalogo : List String) : List String → Option String
  | [] => none
  | c :: resto =>
    if catalogo.contains c then some c else primerCodigoCatalogo catalogo resto

/-- Pattern tier of `_asignar_codigo_material`: first rule whose pattern
matches and whose `mapeo` (then `alturas`) table yields a code present in the
catalog. -/
def asignarPorPatrones (catalogo : List String) (uc : String) :
    List ReglaPatronMaterial → Option String
  | [] => none
  | regla :: resto =>
    match regla.extraer uc with
    | none => asignarPorPatrones catalogo uc resto
    | some grupo =>
      let porMapeo : Option String :=
        match regla.mapeo with
        | some m =>
          match buscar m grupo with
          | some codigo => if catalogo.contains codigo then some codigo else none
          | none => none
        | none => none
      match porMapeo with
      | some c => some c
      | none =>
        let porAlturas : Option String :=
          match regla.alturas with
          | some a =>
            match buscar a grupo with
            | some codigos => primerCodigoCatalogo catalogo codigos
            | none => none
          | none => none
        match porAlturas with
        | some c => some c
        | none => asignarPorPatrones catalogo uc resto

/-- Embedding of `EstructuraClassifier._asignar_codigo_material` from
src/estructuras/services_backup_20251105_080346.py, parameterized over the
three mapping tiers and the material catalog (whose concrete contents live
in the missing constants module). -/
def asignarCodigoMaterialCon (directos : List (String × String))
    (patrones : List ReglaPatronMaterial) (defecto : List (String × String))
    (catalogo : List String) (uc : String) : String :=
  if pyStrip uc = "" then ""
  else
    let ucLimpio := pyUpper (pyStrip uc)
    let porDirecto : Option String :=
      match buscar directos ucLimpio with
      | some c => if catalogo.contains c then some c else none
      | none => none
    match porDirecto with
    | some c => c
    | none =>
      match asignarPorPatrones catalogo ucLimpio patrones with
      | some c => c
      | none =>
        let tipoEstructura := clasificarTipoPorUc ucLimpio
        match buscar defecto tipoEstructura with
        | some c => if catalogo.contains c then c else ""
        | none => ""

/-- Modelled from the spec: the `CATALOGO_MATERIALES` master catalog of the
missing constants module (concrete codes are illustrative; the spec example
code 200067 is included). -/
def CATALOGO_MATERIALES : List String := ["200066", "200067", "200068"]

/-- Modelled from the spec: the `MAPEOS_DIRECTOS` tier of
`MAPEO_UC_MATERIAL` in the missing constants module (the spec scenario maps
N3L75 through the direct-or-pattern tier). -/
def MAPEOS_DIRECTOS_MATERIAL : List (String × String) := [("N3L75", "200067")]

/-- Modelled from the spec: the prefix-anchored pattern `N<level>L<load>`
with the load digits as capture group. -/
def extraerCargaNL (uc : String) : Option String :=
  match uc.data with
  | 'N' :: resto =>
    let niv := resto.takeWhile Char.isDigit
    let resto2 := resto.dropWhile Char.isDigit
    if niv.isEmpty then none
    else
      match resto2 with
      | 'L' :: resto3 =>
        let carga := resto3.takeWhile Char.isDigit
        if carga.isEmpty then none else some ⟨carga⟩
      | _ => none
  | _ => none

/-- Modelled from the spec: the `REGLAS_POR_PATRON` tier of
`MAPEO_UC_MATERIAL` in the missing constants module. -/
def REGLAS_PATRON_MATERIAL : List ReglaPatronMaterial :=
  [{ extraer := extraerCargaNL,
     mapeo := some [("75", "200067"), ("79", "200068")],
     alturas := none }]

/-- Modelled from the spec: the `MAPEO_POR_DEFECTO` tier of
`MAPEO_UC_MATERIAL` in the missing constants module, keyed on the structure
TYPE. -/
def MAPEO_MATERIAL_POR_DEFECTO : List (String × String) :=
  [("PRIMARIO", "200067"), ("SECUNDARIO", "200066")]

/-- The `_asignar_codigo_material` embedding instantiated at the modelled
tables. -/
def asignarCodigoMaterial (uc : String) : String :=
  asignarCodigoMaterialCon MAPEOS_DIRECTOS_MATERIAL REGLAS_PATRON_MATERIAL
    MAPEO_MATERIAL_POR_DEFECTO CATALOGO_MATERIALES uc

/-- Numeric value of a decimal digit character. -/
def valorChar (c : Char) : Nat := c.toNat - 48

/-- Format tokens for the `strptime` patterns used by the two date
formatters: a 4-digit year, a 1-or-2-digit month or day, or a literal
separator character. -/
inductive TokenFecha
  | anio
  | mes
  | dia
  | lit (c : Char)

/-- CPython `_strptime` field matching for `%d` / `%m`: a 2-digit run whose
value is within range is consumed greedily, else a 1-digit value 1-9.  With
the separator-delimited formats used here this is exactly the regex
behaviour (a digit can never equal the following literal separator, and a
match is never retried against the trailing-length check). -/
def tomarCampo2o1 (max2 : Nat) (cs : List Char) : Option (Nat × List Char) :=
  match cs with
  | c1 :: c2 :: resto =>
    let v2 := 10 * valorChar c1 + valorChar c2
    if c1.isDigit ∧ c2.isDigit ∧ 1 ≤ v2 ∧ v2 ≤ max2 then some (v2, resto)
    else if c1.isDigit ∧ 1 ≤ valorChar c1 ∧ valorChar c1 ≤ 9 then
      some (valorChar c1, c2 :: resto)
    else none
  | [c1] =>
    if c1.isDigit ∧ 1 ≤ valorChar c1 ∧ valorChar c1 ≤ 9 then some (valorChar c1, [])
    else none
  | [] => none

/-- CPython `_strptime` field matching for `%Y`: exactly four digits. -/
def tomarAnio (cs : List Char) : Option (Nat × List Char) :=
  match cs with
  | c1 :: c2 :: c3 :: c4 :: resto =>
    if c1.isDigit ∧ c2.isDigit ∧ c3.isDigit ∧ c4.isDigit then
      some (1000 * valorChar c1 + 100 * valorChar c2 + 10 * valorChar c3 + valorChar c4,
            resto)
    else none
  | _ => none

/-- Gregorian leap-year rule (as validated by Python `datetime`). -/
def esBisiesto (y : Nat) : Bool :=
  y % 4 = 0 && (y % 100 ≠ 0 || y % 400 = 0)

/-- Days in a month (as validated by Python `datetime`). -/
def diasEnMes (y m : Nat) : Nat :=
  if m = 2 then (if esBisiesto y then 29 else 28)
  else if m = 4 ∨ m = 6 ∨ m = 9 ∨ m = 11 then 30
  else 31

/-- A strptime format: the token sequence of the pattern. -/
def FormatoFecha := List TokenFecha

/-- Token-by-token matching of a format against a character list,
accumulating year, month and day; the whole input must be consumed
(CPython raises unless the match spans the full string). -/
def analizarTokens : List TokenFecha → List Char → Nat → Nat → Nat →
    Option (Nat × Nat × Nat)
  | [], [], y, m, d => some (y, m, d)
  | [], _ :: _, _, _, _ => none
  | .anio :: ts, cs, _, m, d =>
    match tomarAnio cs with
    | some (y, resto) => analizarTokens ts resto y m d
    | none => none
  | .mes :: ts, cs, y, _, d =>
    match tomarCampo2o1 12 cs with
    | some (m, resto) => analizarTokens ts resto y m d
    | none => none
  | .dia :: ts, cs, y, m, _ =>
    match tomarCampo2o1 31 cs with
    | some (d, resto) => analizarTokens ts resto y m d
    | none => none
  | .lit c :: ts, cs, y, m, d =>
    match cs with
    | c0 :: resto => if c0 = c then analizarTokens ts resto y m d else none
    | [] => none

/-- Embedding of Python `datetime.strptime(s, fmt)` restricted to the
`%Y`/`%m`/`%d` formats used by the repository, including the calendar
validation performed by `datetime` construction (year at least 1, day within
the month). -/
def strptimeFecha (fmt : FormatoFecha) (s : String) : Option (Nat × Nat × Nat) :=
  match analizarTokens fmt s.data 0 0 0 with
  | some (y, m, d) => if 1 ≤ y ∧ 1 ≤ d ∧ d ≤ diasEnMes y m then some (y, m, d) else none
  | none => none

/-- Format `%Y-%m-%d`. -/
def fmtYMDguion : FormatoFecha := [.anio, .lit '-', .mes, .lit '-', .dia]

/-- Format `%d/%m/%Y`. -/
def fmtDMYbarra : FormatoFecha := [.dia, .lit '/', .mes, .lit '/', .anio]

/-- Format `%m/%d/%Y`. -/
def fmtMDYbarra : FormatoFecha := [.mes, .lit '/', .dia, .lit '/', .anio]

/-- Format `%Y/%m/%d`. -/
def fmtYMDbarra : FormatoFecha := [.anio, .lit '/', .mes, .lit '/', .dia]

/-- Format `%d-%m-%Y`. -/
def fmtDMYguion : FormatoFecha := [.dia, .lit '-', .mes, .lit '-', .anio]

/-- First successful parse over an ordered format list (the Python
try/except loop: the first format that parses wins). -/
def primerParse (s : String) : List FormatoFecha → Option (Nat × Nat × Nat)
  | [] => none
  | f :: resto =>
    match strptimeFecha f s with
    | some r => some r
    | none => primerParse s resto

/-- Two-digit zero-padded decimal rendering (strftime `%d`, `%m`). -/
def dosDigitos (n : Nat) : List Char :=
  [Nat.digitChar (n / 10 % 10), Nat.digitChar (n % 10)]

/-- Four-digit zero-padded decimal rendering (strftime `%Y`). -/
def cuatroDigitos (n : Nat) : List Char :=
  [Nat.digitChar (n / 1000 % 10), Nat.digitChar (n / 100 % 10),
   Nat.digitChar (n / 10 % 10), Nat.digitChar (n % 10)]

/-- Embedding of Python `fecha.strftime('%d/%m/%Y')`. -/
def strftimeDDMMYYYY (y m d : Nat) : String :=
  ⟨dosDigitos d ++ '/' :: (dosDigitos m ++ '/' :: cuatroDigitos y)⟩

/-- Embedding of the shortcut regex `^\d{2}/\d{2}/\d{4}$` in
`DataUtils.formatear_fecha`. -/
def esFormaDDMMYYYY (s : String) : Bool :=
  match s.data with
  | [a, b, '/', c, d, '/', e, f, g, h] =>
    a.isDigit && b.isDigit && c.isDigit && d.isDigit &&
    e.isDigit && f.isDigit && g.isDigit && h.isDigit
  | _ => false

/-- Format list tried by `DataUtils.formatear_fecha`, in source order. -/
def formatosDataUtils : List FormatoFecha :=
  [fmtYMDguion, fmtDMYbarra, fmtMDYbarra, fmtYMDbarra]

/-- Format list tried by `GeneradorBase.formatear_fecha`, in source order. -/
def formatosGeneradorBase : List FormatoFecha :=
  [fmtDMYbarra, fmtYMDguion, fmtDMYguion, fmtMDYbarra, fmtYMDbarra]

/-- Embedding of `DataUtils.formatear_fecha` from
src/estructuras/services_backup_20251105_080346.py for string inputs (the
datetime-object and Excel-serial branches are unreachable for string-valued
record fields).  A space splits off a trailing time component; unparseable
strings fall through to the empty string. -/
def formatearFecha (fecha : String) : String :=
  if pyStrip fecha = "" then ""
  else
    let fechaStr := pyStrip fecha
    if esFormaDDMMYYYY fechaStr then fechaStr
    else
      let fechaStr2 : String := ⟨fechaStr.data.takeWhile (· ≠ ' ')⟩
      match primerParse fechaStr2 formatosDataUtils with
      | some (y, m, d) => strftimeDDMMYYYY y m d
      | none => ""

/-- Embedding of `GeneradorBase.formatear_fecha` from
src/estructuras/generadores_nuevo/generador_base.py at the default output
format DD/MM/YYYY. -/
def formatearFechaBase (valor : String) : String :=
  if pyLower (pyStrip valor) = "nan" ∨ pyLower (pyStrip valor) = "none" ∨
     pyLower (pyStrip valor) = "" then "01/01/1900"
  else
    let valorStr := pyStrip valor
    match primerParse valorStr formatosGeneradorBase with
    | some (y, m, d) => strftimeDDMMYYYY y m d
    | none => "01/01/1900"

/-- A structure record as consumed by `clasificar_estructura`: the named
fields the classifier reads or writes, mirroring the record dictionary
(string values; absent keys read as the empty string via `dict.get`).
`cmFromExcel` mirrors the `_CODIGO_MATERIAL_FROM_EXCEL` flag and
`tipoProyectoExcel` the `_TIPO_PROYECTO_EXCEL` backup set by
`transformar_datos`; unknown extra keys pass through a Python `dict.copy`
untouched, exactly as every field the classifier does not write passes
through here. -/
structure Registro where
  grupo : String
  clase : String
  uso : String
  porcentajePropiedad : String
  propietario : String
  tipo : String
  tipoProyecto : String
  tipoProyectoExcel : String
  nivelTension : String
  uc : String
  fechaInstalacion : String
  fechaOperacion : String
  codigoMaterial : String
  cmFromExcel : Bool
  estadoSalud : String
  observaciones : String
  obsSistema : String
  fechaClasificacion : String
  versionReglas : String
deriving DecidableEq

/-- The record with every field empty (a row with no data). -/
def Registro.vacio : Registro :=
  ⟨"", "", "", "", "", "", "", "", "", "", "", "", "", false, "", "", "", "", ""⟩

/-- Embedding of `EstructuraClassifier.clasificar_estructura` from
src/estructuras/services_backup_20251105_080346.py.  The wall-clock read
`datetime.now().isoformat()` is made explicit as the `now` argument. -/
def clasificar (now : String) (registro : Registro) : Registro :=
  let uc0 := pyUpper (pyStrip registro.uc)
  let tipoClasificado := clasificarTipoPorUc uc0
  let nivelTension := pyStrip registro.nivelTension
  let uc1 := pyStrip registro.uc
  let valorParaMapeo := if nivelTension ≠ "" then nivelTension else uc1
  let tipoProyectoGenerado := generarTipoProyectoDesdeNivelTension valorParaMapeo
  let tipoProyectoOriginal := pyStrip registro.tipoProyecto
  let tipoProyectoConvertido := convertirTipoProyecto tipoProyectoOriginal
  let tipoProyectoNuevo :=
    if tipoProyectoGenerado ≠ "" then tipoProyectoGenerado else tipoProyectoConvertido
  let fechaFormateada := formatearFecha registro.fechaInstalacion
  let fechaInstNueva :=
    if registro.fechaInstalacion ≠ "" then fechaFormateada else registro.fechaInstalacion
  let fechaOperNueva :=
    if registro.fechaInstalacion ≠ "" then fechaFormateada else registro.fechaOperacion
  let cmExcel := normalizarCodigoMaterial registro.codigoMaterial
  let codigoAsignado := asignarCodigoMaterial uc1
  let cmNuevo :=
    if cmExcel ≠ "" then cmExcel
    else if registro.cmFromExcel = false ∧ codigoAsignado ≠ "" then
      normalizarCodigoMaterial codigoAsignado
    else registro.codigoMaterial
  let estadoConvertido := convertirEstadoSalud registro.estadoSalud
  let estadoNuevo :=
    if estadoConvertido ≠ "" then estadoConvertido else registro.estadoSalud
  let obsGenerado :=
    "TIPO_PROYECTO generado como \x27" ++ tipoProyectoGenerado ++ "\x27 basado en " ++
      (if nivelTension ≠ "" then "NIVEL_TENSION" else "UC") ++ ": " ++ valorParaMapeo
  let obs1 : List String := if tipoProyectoGenerado ≠ "" then [obsGenerado] else []
  let obsFijas : List String :=
    ["TIPO clasificado como " ++ tipoClasificado ++ " basado en UC: " ++ uc1,
     "GRUPO forzado a \x27ESTRUCTURAS EYT\x27",
     "CLASE forzada a \x27POSTE\x27",
     "USO forzado a \x27DISTRIBUCION ENERGIA\x27",
     "PORCENTAJE_PROPIEDAD forzado a \x27100\x27"]
  let obsMaterial : List String :=
    if cmExcel = "" ∧ cmNuevo ≠ "" then
      ["CODIGO_MATERIAL asignado como \x27" ++ cmNuevo ++ "\x27 basado en UC: " ++ uc1]
    else []
  let obsEstado : List String :=
    if estadoConvertido ≠ "" ∧ estadoConvertido ≠ registro.estadoSalud then
      ["ESTADO_SALUD convertido de \x27" ++ registro.estadoSalud ++ "\x27 a \x27" ++
        estadoConvertido ++ "\x27"]
    else []
  let obsProyecto : List String :=
    if tipoProyectoGenerado ≠ "" then [obsGenerado]
    else if tipoProyectoOriginal ≠ tipoProyectoConvertido then
      ["TIPO_PROYECTO convertido de \x27" ++ tipoProyectoOriginal ++ "\x27 a \x27" ++
        tipoProyectoConvertido ++ "\x27"]
    else []
  let obsFecha : List String :=
    if registro.fechaInstalacion ≠ "" then
      ["FECHA_OPERACION igualada a FECHA_INSTALACION"]
    else []
  let listaObs := obs1 ++ obsFijas ++ obsMaterial ++ obsEstado ++ obsProyecto ++ obsFecha
  { registro with
    grupo := "ESTRUCTURAS EYT"
    clase := "POSTE"
    uso := "DISTRIBUCION ENERGIA"
    porcentajePropiedad := "100"
    propietario := clasificarPropietario registro.propietario
    tipo := tipoClasificado
    tipoProyecto := tipoProyectoNuevo
    fechaInstalacion := fechaInstNueva
    fechaOperacion := fechaOperNueva
    codigoMaterial := cmNuevo
    estadoSalud := estadoNuevo
    observaciones := if pyStrip registro.observaciones = "" then "" else registro.observaciones
    obsSistema := String.intercalate "; " listaObs
    fechaClasificacion := now
    versionReglas := "2.5" }

/-- A raw sheet row: column name to cell value, in sheet order (a Python
dict in insertion order). -/
def RegistroCrudo := List (String × String)

/-- The value test applied by `_extraer_campo_conductor` before accepting a
cell: truthy, nonempty after strip, and not a nan/none/null marker. -/
def valorValido (v : String) : Bool :=
  !(pyStrip v == "") &&
    !(pyLower (pyStrip v) == "nan") &&
    !(pyLower (pyStrip v) == "none") &&
    !(pyLower (pyStrip v) == "null")

/-- Exact-header phase of `_extraer_campo_conductor`: first variant present
in the record with a valid value, in variant order. -/
def extraccionExacta (reg : RegistroCrudo) : List String → Option String
  | [] => none
  | nombre :: resto =>
    match buscar reg nombre with
    | some v => if valorValido v then some (pyStrip v) else extraccionExacta reg resto
    | none => extraccionExacta reg resto

/-- Key normalization of the flexible phase: lowercase, remove line breaks,
spaces and underscores, then strip. -/
def normalizarClave (k : String) : String :=
  pyStrip ⟨(pyLower k).data.filter (fun c => ¬(c = '\n' ∨ c = ' ' ∨ c = '_'))⟩

/-- Flexible phase of `_extraer_campo_conductor`: first record entry whose
normalized key equals a normalized variant and whose value is valid, in
record order. -/
def extraccionFlexible (variantes : List String) : RegistroCrudo → Option String
  | [] => none
  | (k, v) :: resto =>
    if variantes.any (fun nombre => normalizarClave k = normalizarClave nombre) &&
        valorValido v then
      some (pyStrip v)
    else extraccionFlexible variantes resto

/-- Embedding of `FileGenerator._extraer_campo_conductor` from
src/estructuras/services_backup_20251105_080346.py, for a given variant
list. -/
def extraerCampoConductor (reg : RegistroCrudo) (variantes : List String) : String :=
  match extraccionExacta reg variantes with
  | some v => v
  | none =>
    match extraccionFlexible variantes reg with
    | some v => v
    | none => ""

/-- Header variants of the previous-reference code, from the `variantes`
table of `_extraer_campo_conductor`. -/
def VARIANTES_CODIGO_FID_GIT : List String :=
  ["Código FID\nGIT", "Código FID GIT", "Codigo FID GIT",
   "CODIGO_FID_GIT", "código fid git", "codigo fid git",
   "FID_GIT", "FID GIT", "Código FID_rep"]

/-- Header variants of the construction unit, from the `variantes` table of
`_extraer_campo_conductor`. -/
def VARIANTES_UNIDAD_CONSTRUCTIVA : List String :=
  ["Unidad Constructiva", "UNIDAD_CONSTRUCTIVA",
   "unidad constructiva", "UC", "UNIDAD CONSTRUCTIVA"]

/-- Previous-reference code extracted from a conductor row. -/
def fidGitDe (reg : RegistroCrudo) : String :=
  extraerCampoConductor reg VARIANTES_CODIGO_FID_GIT

/-- Construction unit extracted from a conductor row. -/
def unidadConstructivaDe (reg : RegistroCrudo) : String :=
  extraerCampoConductor reg VARIANTES_UNIDAD_CONSTRUCTIVA

/-- Membership test of the DECOMMISSION (BAJA) selection of
`generar_txt_baja_linea`: the row has a previous-reference code and no
construction unit. -/
def esBajaLinea (reg : RegistroCrudo) : Bool :=
  !(fidGitDe reg == "") && (unidadConstructivaDe reg == "")

/-- Membership test of the NEW selection of `generar_txt_linea`: the row is
kept unless it has a code without construction unit (BAJA) or has neither
field (dropped by the validation branch). -/
def esNuevoLinea (reg : RegistroCrudo) : Bool :=
  let fid := fidGitDe reg
  let u := unidadConstructivaDe reg
  if !(fid == "") && (u == "") then false
  else if (fid == "") && (u == "") then false
  else true

/-- The NEW filter loop of `generar_txt_linea`. -/
def filtrarNuevoLinea (datos : List RegistroCrudo) : List RegistroCrudo :=
  datos.filter esNuevoLinea

/-- The BAJA filter loop of `generar_txt_baja_linea`. -/
def filtrarBajaLinea (datos : List RegistroCrudo) : List RegistroCrudo :=
  datos.filter esBajaLinea

/-- Output field order of the norm TXT writer `_escribir_txt_norma`. -/
def camposNorma : List String :=
  ["NORMA", "GRUPO", "CIRCUITO", "CODIGO_TRAFO", "MACRONORMA", "CANTIDAD",
   "TIPO_ADECUACION"]

/-- The initial output row of `_escribir_txt_norma`: the spreadsheet values
of the ordered fields, stripped. -/
def regOutInicial (reg : List (String × String)) : List (String × String) :=
  camposNorma.map (fun c => (c, pyStrip (buscarD reg c)))

/-- The BAJA merge loop of `_escribir_txt_norma`: a nonempty database value
overwrites the spreadsheet value. -/
def mergeBajaNorma (regOut bd : List (String × String)) : List (String × String) :=
  regOut.map (fun par =>
    let valBd := pyStrip (buscarD bd par.1)
    if valBd ≠ "" then (par.1, valBd) else par)

/-- The non-BAJA validation loop of `_escribir_txt_norma`: a database value
replaces the spreadsheet value only when nonempty and different. -/
def mergeValidacionNorma (regOut bd : List (String × String)) :
    List (String × String) :=
  regOut.map (fun par =>
    let valBd := pyStrip (buscarD bd par.1)
    if valBd ≠ "" ∧ par.2 ≠ valBd then (par.1, valBd) else par)

/-- Update one field of an output row. -/
def fijarCampo (out : List (String × String)) (k v : String) :
    List (String × String) :=
  out.map (fun par => if par.1 = k then (k, v) else par)

/-- The CANTIDAD default and integral-float normalization at the end of the
per-record loop of `_escribir_txt_norma`. -/
def normalizarCantidadNorma (out : List (String × String)) : List (String × String) :=
  let val := buscarD out "CANTIDAD"
  if val = "" then fijarCampo out "CANTIDAD" "1"
  else
    let sinPuntos := val.data.filter (· ≠ '.')
    if val.data.contains '.' ∧ !sinPuntos.isEmpty ∧ sinPuntos.all Char.isDigit then
      fijarCampo out "CANTIDAD" (parteEntera val)
    else out

/-- Embedding of the per-record body of `TXTNormaGenerator._escribir_txt_norma`
from src/estructuras/generadores/txt_norma.py.  The external database reads
(`obtener_fid_desde_codigo_operativo`, `obtener_fid_desde_enlace`,
`_consultar_norma_oracle`) are passed as functions, with the empty result
standing for a failed or empty lookup. -/
def procesarRegistroNorma (bajas : List (String × String)) (oracleDisponible : Bool)
    (resolverFidDesdeCodigoOp : String → String)
    (resolverFidDesdeEnlace : String → String)
    (consultarNormaOracle : String → List (String × String))
    (reg : List (String × String)) : List (String × String) :=
  let regOut := regOutInicial reg
  let enlaceUpper := pyUpper (pyStrip (buscarD reg "ENLACE"))
  let codigoOp := buscarD bajas enlaceUpper
  let regOut1 :=
    if codigoOp ≠ "" ∧ oracleDisponible = true then
      let fidReal := resolverFidDesdeCodigoOp codigoOp
      if fidReal ≠ "" then
        let datosBd := consultarNormaOracle fidReal
        if datosBd ≠ [] then mergeBajaNorma regOut datosBd else regOut
      else regOut
    else if enlaceUpper ≠ "" ∧ oracleDisponible = true then
      let fid := resolverFidDesdeEnlace enlaceUpper
      if fid ≠ "" then
        let datosBd := consultarNormaOracle fid
        if datosBd ≠ [] then mergeValidacionNorma regOut datosBd else regOut
      else regOut
    else regOut
  normalizarCantidadNorma regOut1

/-- One accumulated validation error: the {row, sheet, description} entry
built by `FileManager._add_err`. -/
structure ErrorValidacion where
  archivo : String
  hoja : String
  fila : Nat
  descripcion : String
deriving DecidableEq

/-- The entry built by `FileManager._add_err` at its default sheet. -/
def errorTxt (fila : Nat) (descripcion : String) : ErrorValidacion :=
  { archivo := "Excel", hoja := "Estructuras_N1-N2-N3", fila := fila,
    descripcion := descripcion }

/-- Embedding of Python `str.lstrip` at the byte-order mark U+FEFF. -/
def quitarBom (v : String) : String :=
  ⟨v.data.dropWhile (· = '﻿')⟩

/-- The literal header names tried for the link identifier in
`_validaciones_txt_especificas`. -/
def literalesEnlace : List String := ["Identificador", "ENLACE", "Enlace"]

/-- First literal present in the raw row with a value other than None or
the empty string, processed as in the source. -/
def primerEnlace (rawRow : List (String × String)) : List String → Option String
  | [] => none
  | lit :: resto =>
    match buscar rawRow lit with
    | some v => if v ≠ "" then some (pyStrip (quitarBom v)) else primerEnlace rawRow resto
    | none => primerEnlace rawRow resto

/-- Pair each processed record with its raw Excel row and Excel index, as
`ejecutar_validaciones_integradas` does. -/
def emparejar (datosFinales rawDatos : List (List (String × String)))
    (idxMap : List Nat) : List (List (String × String) × List (String × String) × Nat) :=
  (List.range datosFinales.length).map (fun i =>
    let idx := idxMap.getD i i
    (datosFinales.getD i [], rawDatos.getD idx [], idx))

/-- The link-identifier validation loop of `_validaciones_txt_especificas`:
empty link, link not starting with P, and duplicate link, with the `vistos`
map carrying first-seen rows. -/
def erroresEnlace :
    List (List (String × String) × List (String × String) × Nat) →
    List (String × Nat) → List ErrorValidacion
  | [], _ => []
  | (registro, rawRow, idx) :: resto, vistos =>
    let fila := idx + 2
    let enlaceDeRaw := (primerEnlace rawRow literalesEnlace).getD ""
    let enlaceRaw :=
      if enlaceDeRaw ≠ "" then enlaceDeRaw else pyStrip (buscarD registro "ENLACE")
    if enlaceRaw = "" then
      errorTxt fila ("el Enlace/Identificador de la linea " ++ natToStr fila ++
        " se encuentra vacio, por favor corrijalo para hacer el cargue masivo") ::
        erroresEnlace resto vistos
    else if !(empiezaCon enlaceRaw "P") then
      errorTxt fila ("el Enlace/Identificador de la linea " ++ natToStr fila ++
        " debe empezar por P") :: erroresEnlace resto vistos
    else
      match buscar vistos enlaceRaw with
      | some f1 =>
        errorTxt fila ("no pueden haber dos enlaces/identificadores iguales: fila " ++
          natToStr f1 ++ " y fila " ++ natToStr fila ++ " con \x27" ++ enlaceRaw ++ "\x27") ::
          erroresEnlace resto vistos
      | none => erroresEnlace resto (vistos ++ [(enlaceRaw, fila)])

/-- The construction-unit validation loop of `_validaciones_txt_especificas`:
empty UC and UC not starting with N. -/
def erroresUc : List (List (String × String) × Nat) → List ErrorValidacion
  | [] => []
  | (registro, idx) :: resto =>
    let fila := idx + 2
    let ucRaw := pyStrip (quitarBom (buscarD registro "UC"))
    if ucRaw = "" then
      errorTxt fila ("la Unidad Constructiva de la linea " ++ natToStr fila ++
        " se encuentra vacia, por favor corrijala para hacer el cargue masivo") ::
        erroresUc resto
    else if !(empiezaCon ucRaw "N") then
      errorTxt fila ("la Unidad Constructiva de la linea " ++ natToStr fila ++
        " debe empezar por N") :: erroresUc resto
    else erroresUc resto

/-- Embedding of `FileManager._validaciones_txt_especificas` from
src/estructuras/generadores_nuevo/file_manager.py: the returned error list
(the accumulated errors, link checks then UC checks, in row order). -/
def validacionesTxtEspecificas (datosFinales rawDatos : List (List (String × String)))
    (idxMap : List Nat) : List ErrorValidacion :=
  let pares := emparejar datosFinales rawDatos idxMap
  erroresEnlace pares [] ++ erroresUc (pares.map (fun t => (t.1, t.2.2)))

/-- Column layouts returned by `FileManager._get_encabezados_txt`. -/
def encabezadosTxt (tipoArchivo : String) : List String :=
  if tipoArchivo = "estructuras_baja" then
    ["COORDENADA_X", "COORDENADA_Y", "UBICACION", "ESTADO", "CODIGO_MATERIAL",
     "FECHA_INSTALACION", "FECHA_OPERACION", "PROYECTO", "EMPRESA", "OBSERVACIONES",
     "CLASIFICACION_MERCADO", "TIPO_PROYECTO", "ID_MERCADO", "UC", "ESTADO_SALUD",
     "OT_MAXIMO", "CODIGO_MARCACION", "SALINIDAD", "ENLACE", "GRUPO", "TIPO",
     "CLASE", "USO", "TIPO_ADECUACION", "PROPIETARIO", "PORCENTAJE_PROPIEDAD"]
  else
    ["COORDENADA_X", "COORDENADA_Y", "UBICACION", "ESTADO", "CODIGO_MATERIAL",
     "FECHA_INSTALACION", "FECHA_OPERACION", "PROYECTO", "EMPRESA", "OBSERVACIONES",
     "CLASIFICACION_MERCADO", "TIPO_PROYECTO", "ID_MERCADO", "UC", "ESTADO_SALUD",
     "OT_MAXIMO", "CODIGO_MARCACION", "SALINIDAD", "FID_ANTERIOR", "GRUPO", "TIPO",
     "CLASE", "USO", "TIPO_ADECUACION", "PROPIETARIO", "PORCENTAJE_PROPIEDAD"]

/-- Result of the coordinated TXT generation: `archivoGenerado = none` means
no output file was opened or written. -/
structure ResultadoTxt where
  exito : Bool
  archivoGenerado : Option (List String × List (List String))
  totalRegistros : Nat
  erroresValidacion : List ErrorValidacion
  mensaje : String
deriving DecidableEq

/-- Embedding of `FileManager.generar_archivo_txt_coordinado` from
src/estructuras/generadores_nuevo/file_manager.py, starting from the
prepared final records (steps 1-3 read Django/Excel state and are external
here); `erroresDatos` stands for the `ValidadorMaestro.validar_solo_datos`
result.  The specific errors appear twice in the combined list, as in the
source (`errores_adicionales` and `errores_acumulados` hold the same
entries). -/
def generarArchivoTxtCoordinado (tipoArchivo : String)
    (datosFinales rawDatos : List (List (String × String)))
    (erroresDatos : List ErrorValidacion) : ResultadoTxt :=
  let idxMap := List.range datosFinales.length
  let errEspecificos := validacionesTxtEspecificas datosFinales rawDatos idxMap
  let errores := erroresDatos ++ errEspecificos ++ errEspecificos
  if errores ≠ [] then
    { exito := false, archivoGenerado := none, totalRegistros := 0,
      erroresValidacion := errores,
      mensaje := "Se encontraron " ++ natToStr errores.length ++
        " errores de validación" }
  else
    let encabezados := encabezadosTxt tipoArchivo
    let filas := datosFinales.map (fun registro =>
      encabezados.map (fun campo => buscarD registro campo))
    { exito := true, archivoGenerado := some (encabezados, filas),
      totalRegistros := datosFinales.length, erroresValidacion := [],
      mensaje := "archivo generado exitosamente" }

/-!  Infrastructure lemmas about the embedded Python string helpers. -/

lemma dropWhile_rdropWhile_dropWhile (p : Char → Bool) (l : List Char) :
    ((l.dropWhile p).rdropWhile p).dropWhile p = (l.dropWhile p).rdropWhile p := by
  rcases h : (l.dropWhile p).rdropWhile p with _ | ⟨c, resto⟩
  · simp
  · have hpre := List.rdropWhile_prefix p (l.dropWhile p)
    rw [h] at hpre
    obtain ⟨t, ht⟩ := hpre
    have h0 : 0 < (l.dropWhile p).length := by
      rw [← ht]; simp
    have hnc := List.dropWhile_get_zero_not (p := p) l h0
    have hget : (l.dropWhile p).get ⟨0, h0⟩ = c := by
      have : (l.dropWhile p) = c :: (resto ++ t) := by
        rw [← ht]; simp
      simp [this]
    rw [hget] at hnc
    simp [List.dropWhile_cons, hnc]

lemma pyStrip_idem (s : String) : pyStrip (pyStrip s) = pyStrip s := by
  show pyStrip ⟨(s.data.dropWhile Char.isWhitespace).rdropWhile Char.isWhitespace⟩ =
    ⟨(s.data.dropWhile Char.isWhitespace).rdropWhile Char.isWhitespace⟩
  unfold pyStrip
  congr 1
  show (((s.data.dropWhile Char.isWhitespace).rdropWhile Char.isWhitespace).dropWhile
      Char.isWhitespace).rdropWhile Char.isWhitespace =
    (s.data.dropWhile Char.isWhitespace).rdropWhile Char.isWhitespace
  rw [dropWhile_rdropWhile_dropWhile, List.rdropWhile_idempotent]

lemma pyStrip_clean (s : String) (h : ∀ c ∈ s.data, c.isWhitespace = false) :
    pyStrip s = s := by
  have h1 : s.data.dropWhile Char.isWhitespace = s.data := by
    cases hd : s.data with
    | nil => simp
    | cons c resto =>
      have : c.isWhitespace = false := h c (by rw [hd]; exact List.mem_cons_self c resto)
      simp [List.dropWhile_cons, this]
  have h2 : s.data.rdropWhile Char.isWhitespace = s.data := by
    apply List.rdropWhile_eq_self_iff.mpr
    intro hl
    have := h (s.data.getLast hl) (List.getLast_mem hl)
    simp [this]
  show (⟨(s.data.dropWhile Char.isWhitespace).rdropWhile Char.isWhitespace⟩ : String) = s
  rw [h1, h2]

/-!  C5 and C6: health status and date alignment in the classifier. -/

/-- C5, counterexample to the claim as stated: for the record with health
status 7 the classified record keeps 7 instead of collapsing to empty (the
classifier assigns the conversion only when it is nonempty). -/
theorem c5_counterexample :
    (clasificar "2025-11-05T08:03:46"
        { Registro.vacio with estadoSalud := "7" }).estadoSalud = "7" ∧
      (clasificar "2025-11-05T08:03:46"
        { Registro.vacio with estadoSalud := "7" }).estadoSalud ≠ "" := by
  constructor
  · rfl
  · decide

/-- C5 (amended): the conversion function maps 1 to BUENO, 2 to REGULAR,
3 to MALO and anything unrecognized (such as 7, nan or empty) to empty, but
the classifier overwrites the health-status field only when the conversion
is nonempty, so an unrecognized code is left unchanged in the classified
record rather than collapsing to empty. -/
theorem c5_estado_salud (now : String) (r : Registro) :
    ((clasificar now r).estadoSalud =
      if convertirEstadoSalud r.estadoSalud ≠ "" then convertirEstadoSalud r.estadoSalud
      else r.estadoSalud) ∧
    (convertirEstadoSalud r.estadoSalud = "" ∨
      convertirEstadoSalud r.estadoSalud = "BUENO" ∨
      convertirEstadoSalud r.estadoSalud = "REGULAR" ∨
      convertirEstadoSalud r.estadoSalud = "MALO") ∧
    convertirEstadoSalud "1" = "BUENO" ∧ convertirEstadoSalud "2" = "REGULAR" ∧
    convertirEstadoSalud "3" = "MALO" ∧ convertirEstadoSalud "7" = "" ∧
    convertirEstadoSalud "nan" = "" ∧ convertirEstadoSalud "" = "" := by
  refine ⟨?_, ?_, by decide, by decide, by decide, by decide, by decide, by decide⟩
  · simp [clasificar]
  · unfold convertirEstadoSalud
    dsimp only
    split
    · exact Or.inl rfl
    · split
      · rename_i h
        rcases h with h | h | h
        · exact Or.inr (Or.inl h)
        · exact Or.inr (Or.inr (Or.inl h))
        · exact Or.inr (Or.inr (Or.inr h))
      · exact Or.inl rfl

/-- C6, counterexample to the claim as stated: a record with an empty
installation date and a nonempty operation date keeps the two fields
different after classification (the alignment only runs when the
installation date is nonempty). -/
theorem c6_counterexample :
    (clasificar "2025-11-05T08:03:46"
        { Registro.vacio with fechaOperacion := "01/01/2020" }).fechaOperacion =
      "01/01/2020" ∧
      (clasificar "2025-11-05T08:03:46"
        { Registro.vacio with fechaOperacion := "01/01/2020" }).fechaInstalacion = "" := by
  constructor
  · rfl
  · rfl

/-- C6 (amended): after classification the operation date equals the
installation date whenever the input installation date is nonempty (both
are then the formatted installation date); when the installation date is
empty both fields pass through unchanged, so they are equal only if they
already were. -/
theorem c6_fechas (now : String) (r : Registro) :
    (r.fechaInstalacion ≠ "" →
      (clasificar now r).fechaOperacion = (clasificar now r).fechaInstalacion) ∧
    (r.fechaInstalacion = "" →
      (clasificar now r).fechaInstalacion = r.fechaInstalacion ∧
      (clasificar now r).fechaOperacion = r.fechaOperacion) := by
  constructor
  · intro h
    simp [clasificar, h]
  · intro h
    constructor
    · simp [clasificar, h]
    · simp [clasificar, h]

/-- C6 witness: the amended theorem applied at a concrete record with a
nonempty installation date. -/
theorem c6_fechas_witness :
    (clasificar "t" { Registro.vacio with fechaInstalacion := "2023-01-15" }).fechaOperacion =
      (clasificar "t" { Registro.vacio with fechaInstalacion := "2023-01-15" }).fechaInstalacion :=
  (c6_fechas "t" { Registro.vacio with fechaInstalacion := "2023-01-15" }).1 (by decide)

/-!  C3: TYPE from the construction unit.  C1: NEW / BAJA routing. -/

lemma clasificarTipoPorUc_eq (u : String) :
    clasificarTipoPorUc u =
      if u = "" then "SECUNDARIO"
      else if empiezaCon u "N1" then "SECUNDARIO"
      else if empiezaCon u "N2" || empiezaCon u "N3" || empiezaCon u "N4" then "PRIMARIO"
      else "SECUNDARIO" := by
  unfold clasificarTipoPorUc REGLAS_TIPO_POR_UC TIPO_UC_DEFECTO
  by_cases h0 : u = ""
  · simp [h0]
  · by_cases h1 : empiezaCon u "N1"
    · simp [h0, h1, primeraRegla]
    · by_cases h2 : (empiezaCon u "N2" || empiezaCon u "N3" || empiezaCon u "N4") = true
      · simp [h0, h1, h2, primeraRegla]
      · simp [h0, h1, h2, primeraRegla]

lemma empiezaCon_N1_falso (uc : String)
    (h : (empiezaCon uc "N2" || empiezaCon uc "N3" || empiezaCon uc "N4") = true) :
    empiezaCon uc "N1" = false := by
  unfold empiezaCon at h ⊢
  cases hd : uc.data with
  | nil => rw [hd] at h; simp [List.isPrefixOf] at h
  | cons a resto =>
    cases resto with
    | nil => rw [hd] at h; simp [List.isPrefixOf] at h
    | cons b resto2 =>
      rw [hd] at h
      simp only [show ("N1" : String).data = ['N', '1'] from rfl,
        show ("N2" : String).data = ['N', '2'] from rfl,
        show ("N3" : String).data = ['N', '3'] from rfl,
        show ("N4" : String).data = ['N', '4'] from rfl, List.isPrefixOf] at h ⊢
      simp only [Bool.or_eq_true, Bool.and_eq_true, beq_iff_eq] at h
      simp only [Bool.and_eq_false_iff, beq_eq_false_iff_ne, ne_eq]
      rcases h with (⟨-, hb, -⟩ | ⟨-, hb, -⟩) | ⟨-, hb, -⟩ <;>
      · subst hb
        right
        left
        decide

/-- C3: the classifier TYPE output depends only on the construction-unit
code (the classifier assigns exactly `clasificarTipoPorUc` of the cleaned
UC, a function of no other field); a code starting with N1 yields
SECUNDARIO, one starting with N2, N3 or N4 yields PRIMARIO, and an empty or
non-matching code yields the default SECUNDARIO, so the output is always one
of exactly these two values. -/
theorem c3_tipo_por_uc (uc now : String) (r : Registro) :
    (clasificarTipoPorUc uc = "SECUNDARIO" ∨ clasificarTipoPorUc uc = "PRIMARIO") ∧
    (empiezaCon uc "N1" = true → clasificarTipoPorUc uc = "SECUNDARIO") ∧
    ((empiezaCon uc "N2" || empiezaCon uc "N3" || empiezaCon uc "N4") = true →
      clasificarTipoPorUc uc = "PRIMARIO") ∧
    (uc = "" → clasificarTipoPorUc uc = "SECUNDARIO") ∧
    ((empiezaCon uc "N1" || empiezaCon uc "N2" || empiezaCon uc "N3" ||
        empiezaCon uc "N4") = false → clasificarTipoPorUc uc = "SECUNDARIO") ∧
    (clasificar now r).tipo = clasificarTipoPorUc (pyUpper (pyStrip r.uc)) := by
  refine ⟨?_, ?_, ?_, ?_, ?_, ?_⟩
  · rw [clasificarTipoPorUc_eq]
    split
    · exact Or.inl rfl
    · split
      · exact Or.inl rfl
      · split
        · exact Or.inr rfl
        · exact Or.inl rfl
  · intro h
    rw [clasificarTipoPorUc_eq]
    have hne : uc ≠ "" := by
      intro h0
      rw [h0] at h
      simp [empiezaCon, List.isPrefixOf] at h
    simp [hne, h]
  · intro h
    have h1 := empiezaCon_N1_falso uc h
    have hne : uc ≠ "" := by
      intro h0
      rw [h0] at h
      simp [empiezaCon, List.isPrefixOf] at h
    rw [clasificarTipoPorUc_eq]
    simp [hne, h1, h]
  · intro h
    simp [clasificarTipoPorUc_eq, h]
  · intro h
    simp only [Bool.or_eq_false_iff] at h
    obtain ⟨⟨⟨h1, h2⟩, h3⟩, h4⟩ := h
    rw [clasificarTipoPorUc_eq]
    by_cases h0 : uc = "" <;> simp [h0, h1, h2, h3, h4]
  · simp [clasificar]

/-- C3 witness: the theorem applied at the concrete code N3L75 and a record
carrying it, discharging the hypotheses of the inner implications. -/
theorem c3_tipo_por_uc_witness :
    clasificarTipoPorUc "N3L75" = "PRIMARIO" ∧
      (clasificar "t" { Registro.vacio with uc := "N3L75" }).tipo =
        clasificarTipoPorUc (pyUpper (pyStrip "N3L75")) :=
  ⟨(c3_tipo_por_uc "N3L75" "t" { Registro.vacio with uc := "N3L75" }).2.2.1 (by decide),
   (c3_tipo_por_uc "N3L75" "t" { Registro.vacio with uc := "N3L75" }).2.2.2.2.2⟩

/-- C1, counterexample to the claim as stated: a conductor row with neither
a previous-reference code nor a construction unit is excluded from BOTH
selections (the claim says every non-BAJA record, including one with
neither field, is NEW), so the two-way split is not exhaustive. -/
theorem c1_counterexample :
    esNuevoLinea [("Identificador", "P10")] = false ∧
      esBajaLinea [("Identificador", "P10")] = false := by
  constructor
  · rfl
  · rfl

/-- C1 (amended): the NEW and BAJA selections of the conductor-line
generators are mutually exclusive, a row is BAJA exactly when its
previous-reference code is present and its construction unit is empty, and
a row is NEW exactly when its construction unit is nonempty; a row with
neither field is excluded from both selections, so the split is exhaustive
only over rows carrying at least one of the two fields. -/
theorem c1_enrutamiento (reg : RegistroCrudo) :
    (esBajaLinea reg && esNuevoLinea reg) = false ∧
    (esBajaLinea reg = true ↔ fidGitDe reg ≠ "" ∧ unidadConstructivaDe reg = "") ∧
    (esNuevoLinea reg = true ↔ unidadConstructivaDe reg ≠ "") := by
  unfold esBajaLinea esNuevoLinea
  by_cases hf : fidGitDe reg = "" <;> by_cases hu : unidadConstructivaDe reg = "" <;>
    simp [hf, hu]

/-!  C4: material code.  C2: database reconciliation merge. -/

lemma primerCodigoCatalogo_mem (cat : List String) :
    ∀ (l : List String) (c : String), primerCodigoCatalogo cat l = some c →
      cat.contains c = true := by
  intro l
  induction l with
  | nil => intro c h; simp [primerCodigoCatalogo] at h
  | cons x resto ih =>
    intro c h
    unfold primerCodigoCatalogo at h
    by_cases hx : cat.contains x = true
    · rw [if_pos hx] at h
      cases h
      exact hx
    · rw [if_neg hx] at h
      exact ih c h

lemma asignarPorPatrones_mem (cat : List String) (uc : String) :
    ∀ (patrones : List ReglaPatronMaterial) (c : String),
      asignarPorPatrones cat uc patrones = some c → cat.contains c = true := by
  intro patrones
  induction patrones with
  | nil => intro c h; simp [asignarPorPatrones] at h
  | cons regla resto ih =>
    intro c h
    unfold asignarPorPatrones at h
    rcases hex : regla.extraer uc with - | grupo
    · rw [hex] at h
      exact ih c h
    · rw [hex] at h
      dsimp only at h
      split at h
      · rename_i c0 hm
        -- the mapeo tier produced c0, guarded by the catalog check
        rcases hmap : regla.mapeo with - | m
        · rw [hmap] at hm; simp at hm
        · rw [hmap] at hm
          dsimp only at hm
          rcases hb : buscar m grupo with - | codigo
          · rw [hb] at hm; simp at hm
          · rw [hb] at hm
            dsimp only at hm
            by_cases hcat : cat.contains codigo = true
            · rw [if_pos hcat] at hm
              cases hm
              cases h
              exact hcat
            · rw [if_neg hcat] at hm
              simp at hm
      · -- mapeo tier empty: alturas tier or next rule
        split at h
        · rename_i c0 ha
          rcases halt : regla.alturas with - | a
          · rw [halt] at ha; simp at ha
          · rw [halt] at ha
            dsimp only at ha
            rcases hb : buscar a grupo with - | codigos
            · rw [hb] at ha; simp at ha
            · rw [hb] at ha
              dsimp only at ha
              cases h
              exact primerCodigoCatalogo_mem cat codigos _ ha
        · exact ih c h

lemma asignarCodigoMaterialCon_catalogo (directos : List (String × String))
    (patrones : List ReglaPatronMaterial) (defecto : List (String × String))
    (catalogo : List String) (uc : String) :
    asignarCodigoMaterialCon directos patrones defecto catalogo uc = "" ∨
      catalogo.contains (asignarCodigoMaterialCon directos patrones defecto catalogo uc) =
        true := by
  unfold asignarCodigoMaterialCon
  split
  · exact Or.inl rfl
  · dsimp only
    split
    · rename_i c hdir
      rcases hb : buscar directos (pyUpper (pyStrip uc)) with - | c0
      · rw [hb] at hdir; simp at hdir
      · rw [hb] at hdir
        dsimp only at hdir
        by_cases hcat : catalogo.contains c0 = true
        · rw [if_pos hcat] at hdir
          cases hdir
          exact Or.inr hcat
        · rw [if_neg hcat] at hdir
          simp at hdir
    · split
      · rename_i c hpat
        exact Or.inr (asignarPorPatrones_mem catalogo (pyUpper (pyStrip uc)) patrones c hpat)
      · split
        · rename_i c hdef
          by_cases hcat : catalogo.contains c = true
          · rw [if_pos hcat]
            exact Or.inr hcat
          · rw [if_neg hcat]
            exact Or.inl rfl
        · exact Or.inl rfl

/-- C4, counterexample to the claim as stated: the normalization does not
leave every non-numeric string unchanged — surrounding whitespace is
stripped. -/
theorem c4_counterexample :
    normalizarCodigoMaterial "  abc  " = "abc" ∧
      normalizarCodigoMaterial "  abc  " ≠ "  abc  " := by
  constructor
  · rfl
  · decide

/-- C4 (amended): an explicitly supplied material code (flag set) is
trusted: the value is normalized from integral-float notation (200067.0
becomes 200067, 200067 stays 200067, and a string matching neither numeric
pattern passes through with only surrounding whitespace stripped), and even
when the supplied value is empty no construction-unit fallback runs; only
when the column was not supplied (flag unset) and the value is empty is the
code resolved through the UC fallback tiers, each tier accepted only if the
code is present in the material catalog. -/
theorem c4_codigo_material (now : String) (r : Registro) (v : String)
    (directos : List (String × String)) (patrones : List ReglaPatronMaterial)
    (defecto : List (String × String)) (catalogo : List String) (uc : String) :
    normalizarCodigoMaterial "200067.0" = "200067" ∧
    normalizarCodigoMaterial "200067" = "200067" ∧
    (esSoloDigitos (reemplazarComaPorPunto (pyStrip v)) = false →
      esEnteroPuntoCeros (reemplazarComaPorPunto (pyStrip v)) = false →
      normalizarCodigoMaterial v = pyStrip v) ∧
    (r.cmFromExcel = true →
      (clasificar now r).codigoMaterial =
        (if normalizarCodigoMaterial r.codigoMaterial ≠ "" then
          normalizarCodigoMaterial r.codigoMaterial
         else r.codigoMaterial)) ∧
    (r.cmFromExcel = false → normalizarCodigoMaterial r.codigoMaterial = "" →
      (clasificar now r).codigoMaterial =
        (if asignarCodigoMaterial (pyStrip r.uc) ≠ "" then
          normalizarCodigoMaterial (asignarCodigoMaterial (pyStrip r.uc))
         else r.codigoMaterial)) ∧
    (asignarCodigoMaterialCon directos patrones defecto catalogo uc = "" ∨
      catalogo.contains (asignarCodigoMaterialCon directos patrones defecto catalogo uc) =
        true) := by
  refine ⟨by decide, by decide, ?_, ?_, ?_,
    asignarCodigoMaterialCon_catalogo directos patrones defecto catalogo uc⟩
  · intro h1 h2
    unfold normalizarCodigoMaterial
    by_cases h0 : pyStrip v = ""
    · rw [if_pos h0, h0]
    · rw [if_neg h0]
      dsimp only
      rw [h1]
      simp only [Bool.false_eq_true, if_false]
      rw [h2]
      simp
  · intro hflag
    simp [clasificar, hflag]
  · intro hflag hcm
    simp [clasificar, hflag, hcm]

/-- C4 witness: the amended theorem applied at a concrete trusted-but-empty
material code (flag set, value empty), showing no UC fallback runs, and at
a concrete non-numeric value. -/
theorem c4_codigo_material_witness :
    (clasificar "t" { Registro.vacio with uc := "N3L75", cmFromExcel := true }).codigoMaterial =
      (if normalizarCodigoMaterial
            ({ Registro.vacio with uc := "N3L75", cmFromExcel := true } :
              Registro).codigoMaterial ≠ "" then
        normalizarCodigoMaterial
          ({ Registro.vacio with uc := "N3L75", cmFromExcel := true } : Registro).codigoMaterial
       else
        ({ Registro.vacio with uc := "N3L75", cmFromExcel := true } :
          Registro).codigoMaterial) ∧
    normalizarCodigoMaterial "poste-X" = pyStrip "poste-X" :=
  ⟨(c4_codigo_material "t" { Registro.vacio with uc := "N3L75", cmFromExcel := true }
      "poste-X" [] [] [] [] "").2.2.2.1 rfl,
   (c4_codigo_material "t" { Registro.vacio with uc := "N3L75", cmFromExcel := true }
      "poste-X" [] [] [] [] "").2.2.1 (by decide) (by decide)⟩

lemma buscar_map_valor (g : String → String → String) (l : List (String × String))
    (c : String) :
    buscar (l.map (fun par => (par.1, g par.1 par.2))) c = (buscar l c).map (g c) := by
  induction l with
  | nil => rfl
  | cons par resto ih =>
    obtain ⟨k, v⟩ := par
    by_cases hk : k = c
    · subst hk
      simp [buscar]
    · simp [buscar, hk, ih]

lemma buscar_map_lista (f : String → String) (ks : List String) (c : String)
    (hc : c ∈ ks) : buscar (ks.map (fun k => (k, f k))) c = some (f c) := by
  induction ks with
  | nil => cases hc
  | cons k resto ih =>
    by_cases hk : k = c
    · subst hk
      simp [buscar]
    · rcases List.mem_cons.mp hc with h | h
      · exact absurd h.symm hk
      · simp [buscar, hk, ih h]

lemma mergeBajaNorma_map (out bd : List (String × String)) :
    mergeBajaNorma out bd =
      out.map (fun par =>
        (par.1,
          if pyStrip (buscarD bd par.1) ≠ "" then pyStrip (buscarD bd par.1) else par.2)) := by
  unfold mergeBajaNorma
  congr 1
  funext par
  dsimp only
  split <;> simp

lemma mergeValidacionNorma_map (out bd : List (String × String)) :
    mergeValidacionNorma out bd =
      out.map (fun par =>
        (par.1,
          if pyStrip (buscarD bd par.1) ≠ "" ∧ par.2 ≠ pyStrip (buscarD bd par.1) then
            pyStrip (buscarD bd par.1)
          else par.2)) := by
  unfold mergeValidacionNorma
  congr 1
  funext par
  dsimp only
  split <;> simp

/-- C2: the reconciliation merge of the norm writer, field by field over the
output layout.  On the BAJA path (record resolved via its operational code)
each output field is the database value when that value is nonempty and
otherwise keeps the spreadsheet value; on the non-BAJA path (record resolved
via its link) a field is replaced only when the database value is nonempty
and differs from the spreadsheet value.  In particular the full per-record
processing of a resolved BAJA with database NORMA X and empty CIRCUITO
keeps the spreadsheet CIRCUITO and adopts NORMA X. -/
theorem c2_reconciliacion :
    (∀ (reg bd : List (String × String)) (c : String), c ∈ camposNorma →
      buscarD (mergeBajaNorma (regOutInicial reg) bd) c =
        (if pyStrip (buscarD bd c) ≠ "" then pyStrip (buscarD bd c)
         else pyStrip (buscarD reg c))) ∧
    (∀ (reg bd : List (String × String)) (c : String), c ∈ camposNorma →
      buscarD (mergeValidacionNorma (regOutInicial reg) bd) c =
        (if pyStrip (buscarD bd c) ≠ "" ∧ pyStrip (buscarD reg c) ≠ pyStrip (buscarD bd c)
         then pyStrip (buscarD bd c) else pyStrip (buscarD reg c))) ∧
    buscarD (procesarRegistroNorma [("P1", "Z23816")] true (fun _ => "555") (fun _ => "")
        (fun _ => [("NORMA", "X"), ("CIRCUITO", "")])
        [("ENLACE", "P1"), ("NORMA", "n0"), ("CIRCUITO", "c0")]) "NORMA" = "X" ∧
    buscarD (procesarRegistroNorma [("P1", "Z23816")] true (fun _ => "555") (fun _ => "")
        (fun _ => [("NORMA", "X"), ("CIRCUITO", "")])
        [("ENLACE", "P1"), ("NORMA", "n0"), ("CIRCUITO", "c0")]) "CIRCUITO" = "c0" := by
  refine ⟨?_, ?_, by decide, by decide⟩
  · intro reg bd c hc
    rw [mergeBajaNorma_map]
    unfold regOutInicial
    rw [show ((camposNorma.map (fun k => (k, pyStrip (buscarD reg k)))).map
          (fun par =>
            (par.1,
              if pyStrip (buscarD bd par.1) ≠ "" then pyStrip (buscarD bd par.1)
              else par.2))) =
        camposNorma.map (fun k =>
          (k, if pyStrip (buscarD bd k) ≠ "" then pyStrip (buscarD bd k)
              else pyStrip (buscarD reg k))) by
      rw [List.map_map]
      exact List.map_congr_left (fun k _ => rfl)]
    unfold buscarD
    rw [buscar_map_lista _ camposNorma c hc]
    rfl
  · intro reg bd c hc
    rw [mergeValidacionNorma_map]
    unfold regOutInicial
    rw [show ((camposNorma.map (fun k => (k, pyStrip (buscarD reg k)))).map
          (fun par =>
            (par.1,
              if pyStrip (buscarD bd par.1) ≠ "" ∧ par.2 ≠ pyStrip (buscarD bd par.1) then
                pyStrip (buscarD bd par.1)
              else par.2))) =
        camposNorma.map (fun k =>
          (k,
            if pyStrip (buscarD bd k) ≠ "" ∧ pyStrip (buscarD reg k) ≠ pyStrip (buscarD bd k)
            then pyStrip (buscarD bd k) else pyStrip (buscarD reg k))) by
      rw [List.map_map]
      exact List.map_congr_left (fun k _ => rfl)]
    unfold buscarD
    rw [buscar_map_lista _ camposNorma c hc]
    rfl

/-- C2 witness: the merge equations applied at the concrete NORMA X /
CIRCUITO empty scenario. -/
theorem c2_reconciliacion_witness :
    buscarD (mergeBajaNorma
        (regOutInicial [("NORMA", "n0"), ("CIRCUITO", "c0")])
        [("NORMA", "X"), ("CIRCUITO", "")]) "CIRCUITO" =
      (if pyStrip (buscarD [("NORMA", "X"), ("CIRCUITO", "")] "CIRCUITO") ≠ "" then
        pyStrip (buscarD [("NORMA", "X"), ("CIRCUITO", "")] "CIRCUITO")
       else pyStrip (buscarD [("NORMA", "n0"), ("CIRCUITO", "c0")] "CIRCUITO")) ∧
    buscarD (mergeValidacionNorma
        (regOutInicial [("NORMA", "n0"), ("CIRCUITO", "c0")])
        [("NORMA", "X"), ("CIRCUITO", "")]) "NORMA" =
      (if pyStrip (buscarD [("NORMA", "X"), ("CIRCUITO", "")] "NORMA") ≠ "" ∧
          pyStrip (buscarD [("NORMA", "n0"), ("CIRCUITO", "c0")] "NORMA") ≠
            pyStrip (buscarD [("NORMA", "X"), ("CIRCUITO", "")] "NORMA") then
        pyStrip (buscarD [("NORMA", "X"), ("CIRCUITO", "")] "NORMA")
       else pyStrip (buscarD [("NORMA", "n0"), ("CIRCUITO", "c0")] "NORMA")) :=
  ⟨c2_reconciliacion.1 [("NORMA", "n0"), ("CIRCUITO", "c0")]
      [("NORMA", "X"), ("CIRCUITO", "")] "CIRCUITO" (by decide),
   c2_reconciliacion.2.1 [("NORMA", "n0"), ("CIRCUITO", "c0")]
      [("NORMA", "X"), ("CIRCUITO", "")] "NORMA" (by decide)⟩

/-!  C9: validation errors abort file generation before any write. -/

/-- C9: whenever the combined row-level validation error list (the
`ValidadorMaestro` data errors plus the TXT-specific link and
construction-unit checks, the latter accumulated twice as in the source) is
nonempty, the coordinated TXT generation aborts with no output file
produced (`archivoGenerado = none` means the file was never opened or
written), failure reported, and the structured {row, sheet, description}
error list surfaced in the result. -/
theorem c9_abortar (tipoArchivo : String)
    (datosFinales rawDatos : List (List (String × String)))
    (erroresDatos : List ErrorValidacion)
    (h : erroresDatos ++
        validacionesTxtEspecificas datosFinales rawDatos
          (List.range datosFinales.length) ++
        validacionesTxtEspecificas datosFinales rawDatos
          (List.range datosFinales.length) ≠ []) :
    (generarArchivoTxtCoordinado tipoArchivo datosFinales rawDatos
        erroresDatos).archivoGenerado = none ∧
    (generarArchivoTxtCoordinado tipoArchivo datosFinales rawDatos
        erroresDatos).exito = false ∧
    (generarArchivoTxtCoordinado tipoArchivo datosFinales rawDatos
        erroresDatos).erroresValidacion =
      erroresDatos ++
        validacionesTxtEspecificas datosFinales rawDatos
          (List.range datosFinales.length) ++
        validacionesTxtEspecificas datosFinales rawDatos
          (List.range datosFinales.length) := by
  unfold generarArchivoTxtCoordinado
  dsimp only
  rw [if_pos h]
  exact ⟨rfl, rfl, rfl⟩

/-- C9 witness: the theorem applied at a concrete batch whose single row has
an empty link identifier, discharging the nonemptiness hypothesis. -/
theorem c9_abortar_witness :
    (generarArchivoTxtCoordinado "estructuras_nuevo" [[("ENLACE", ""), ("UC", "N1")]]
        [[]] []).archivoGenerado = none ∧
    (generarArchivoTxtCoordinado "estructuras_nuevo" [[("ENLACE", ""), ("UC", "N1")]]
        [[]] []).exito = false ∧
    (generarArchivoTxtCoordinado "estructuras_nuevo" [[("ENLACE", ""), ("UC", "N1")]]
        [[]] []).erroresValidacion =
      [] ++
        validacionesTxtEspecificas [[("ENLACE", ""), ("UC", "N1")]] [[]]
          (List.range ([[("ENLACE", ""), ("UC", "N1")]] :
            List (List (String × String))).length) ++
        validacionesTxtEspecificas [[("ENLACE", ""), ("UC", "N1")]] [[]]
          (List.range ([[("ENLACE", ""), ("UC", "N1")]] :
            List (List (String × String))).length) :=
  c9_abortar "estructuras_nuevo" [[("ENLACE", ""), ("UC", "N1")]] [[]] [] (by decide)

/-!  C7: date formatting in DataUtils. -/

/-- C7, counterexample to the claim as stated: an input matching none of
the attempted formats is replaced by the empty string, not returned
unchanged. -/
theorem c7_counterexample :
    formatearFecha "abc" = "" ∧ formatearFecha "abc" ≠ "abc" := by
  constructor
  · rfl
  · decide

/-- C7 (amended): `DataUtils.formatear_fecha` tries its input formats in
order with the first successful parse winning (shown both in general via
`primerParse` and concretely on 3/4/2023, which parses under both the
day-first and the month-first slash formats and takes the earlier day-first
one), renders DD/MM/YYYY output, and returns an input already matching the
two-digit DD/MM/YYYY shape unchanged; an input matching none of the formats
is replaced by the empty string rather than passing through unchanged. -/
theorem c7_formato_fecha (s : String) :
    (pyStrip s ≠ "" → esFormaDDMMYYYY (pyStrip s) = false →
      formatearFecha s =
        (match primerParse ⟨(pyStrip s).data.takeWhile (· ≠ ' ')⟩ formatosDataUtils with
         | some (y, m, d) => strftimeDDMMYYYY y m d
         | none => "")) ∧
    (esFormaDDMMYYYY (pyStrip s) = true → formatearFecha s = pyStrip s) ∧
    (pyStrip s = "" → formatearFecha s = "") ∧
    formatearFecha "3/4/2023" = "03/04/2023" ∧
    strptimeFecha fmtDMYbarra "3/4/2023" = some (2023, 4, 3) ∧
    strptimeFecha fmtMDYbarra "3/4/2023" = some (2023, 3, 4) := by
  refine ⟨?_, ?_, ?_, by decide, by decide, by decide⟩
  · intro h1 h2
    simp [formatearFecha, h1, h2]
  · intro h
    have h1 : pyStrip s ≠ "" := by
      intro h0
      rw [h0] at h
      simp [esFormaDDMMYYYY] at h
    simp [formatearFecha, h1, h]
  · intro h
    simp [formatearFecha, h]

/-- C7 witness: the theorem applied at a concrete unparseable input and at
a concrete DD/MM/YYYY-shaped input, discharging the hypotheses. -/
theorem c7_formato_fecha_witness :
    formatearFecha "nofecha" =
      (match primerParse ⟨(pyStrip "nofecha").data.takeWhile (· ≠ ' ')⟩ formatosDataUtils with
       | some (y, m, d) => strftimeDDMMYYYY y m d
       | none => "") ∧
    formatearFecha "31/12/2023" = pyStrip "31/12/2023" :=
  ⟨(c7_formato_fecha "nofecha").1 (by decide) (by decide),
   (c7_formato_fecha "31/12/2023").2.1 (by decide)⟩

/-!  C10: the two date-formatting implementations. -/

lemma digitChar_isDigit {k : Nat} (h : k < 10) : (Nat.digitChar k).isDigit = true := by
  interval_cases k <;> decide

lemma digitChar_valor {k : Nat} (h : k < 10) : valorChar (Nat.digitChar k) = k := by
  interval_cases k <;> decide

lemma digitChar_no_ws {k : Nat} (h : k < 10) : (Nat.digitChar k).isWhitespace = false := by
  interval_cases k <;> decide

lemma diasEnMes_le_31 (y m : Nat) : diasEnMes y m ≤ 31 := by
  unfold diasEnMes
  split_ifs <;> omega

lemma tomarCampo2o1_dosDigitos (max2 n : Nat) (resto : List Char) (h1 : 1 ≤ n)
    (h2 : n ≤ max2) (h99 : n ≤ 99) :
    tomarCampo2o1 max2 (Nat.digitChar (n / 10 % 10) :: Nat.digitChar (n % 10) :: resto) =
      some (n, resto) := by
  unfold tomarCampo2o1
  dsimp only
  have hv : 10 * valorChar (Nat.digitChar (n / 10 % 10)) +
      valorChar (Nat.digitChar (n % 10)) = n := by
    rw [digitChar_valor (Nat.mod_lt _ (by omega)), digitChar_valor (Nat.mod_lt _ (by omega))]
    omega
  rw [if_pos ⟨digitChar_isDigit (Nat.mod_lt _ (by omega)),
    digitChar_isDigit (Nat.mod_lt _ (by omega)), by rw [hv]; exact h1, by rw [hv]; exact h2⟩,
    hv]

lemma tomarAnio_cuatroDigitos (y : Nat) (resto : List Char) (h : y ≤ 9999) :
    tomarAnio (cuatroDigitos y ++ resto) = some (y, resto) := by
  unfold cuatroDigitos tomarAnio
  dsimp only [List.cons_append, List.nil_append]
  have hv : 1000 * valorChar (Nat.digitChar (y / 1000 % 10)) +
      100 * valorChar (Nat.digitChar (y / 100 % 10)) +
      10 * valorChar (Nat.digitChar (y / 10 % 10)) +
      valorChar (Nat.digitChar (y % 10)) = y := by
    rw [digitChar_valor (Nat.mod_lt _ (by omega)), digitChar_valor (Nat.mod_lt _ (by omega)),
      digitChar_valor (Nat.mod_lt _ (by omega)), digitChar_valor (Nat.mod_lt _ (by omega))]
    omega
  rw [if_pos ⟨digitChar_isDigit (Nat.mod_lt _ (by omega)),
    digitChar_isDigit (Nat.mod_lt _ (by omega)), digitChar_isDigit (Nat.mod_lt _ (by omega)),
    digitChar_isDigit (Nat.mod_lt _ (by omega))⟩, hv]

lemma strptime_dmy_strftime (y m d : Nat) (hy1 : 1 ≤ y) (hy2 : y ≤ 9999) (hm1 : 1 ≤ m)
    (hm2 : m ≤ 12) (hd1 : 1 ≤ d) (hdm : d ≤ diasEnMes y m) :
    strptimeFecha fmtDMYbarra (strftimeDDMMYYYY y m d) = some (y, m, d) := by
  have hd31 : d ≤ 31 := le_trans hdm (diasEnMes_le_31 y m)
  unfold strptimeFecha fmtDMYbarra
  have hdata : (strftimeDDMMYYYY y m d).data =
      Nat.digitChar (d / 10 % 10) :: Nat.digitChar (d % 10) :: '/' ::
        (Nat.digitChar (m / 10 % 10) :: Nat.digitChar (m % 10) :: '/' ::
          (cuatroDigitos y ++ [])) := by
    simp [strftimeDDMMYYYY, dosDigitos]
  rw [hdata]
  dsimp only [analizarTokens]
  rw [tomarCampo2o1_dosDigitos 31 d _ hd1 hd31 (by omega)]
  dsimp only
  rw [tomarCampo2o1_dosDigitos 12 m _ hm1 hm2 (by omega)]
  dsimp only
  rw [tomarAnio_cuatroDigitos y [] hy2]
  rw [if_pos rfl]
  show (if 1 ≤ y ∧ 1 ≤ d ∧ d ≤ diasEnMes y m then some (y, m, d) else none) =
    some (y, m, d)
  exact if_pos ⟨hy1, hd1, hdm⟩

lemma strftime_no_ws (y m d : Nat) :
    ∀ c ∈ (strftimeDDMMYYYY y m d).data, c.isWhitespace = false := by
  intro c hc
  have hus : (strftimeDDMMYYYY y m d).data =
      [Nat.digitChar (d / 10 % 10), Nat.digitChar (d % 10), '/',
       Nat.digitChar (m / 10 % 10), Nat.digitChar (m % 10), '/',
       Nat.digitChar (y / 1000 % 10), Nat.digitChar (y / 100 % 10),
       Nat.digitChar (y / 10 % 10), Nat.digitChar (y % 10)] := rfl
  rw [hus] at hc
  simp only [List.mem_cons, List.not_mem_nil, or_false] at hc
  rcases hc with rfl | rfl | rfl | rfl | rfl | rfl | rfl | rfl | rfl | rfl
  all_goals first
    | exact digitChar_no_ws (Nat.mod_lt _ (by omega))
    | decide

lemma pyStrip_strftime (y m d : Nat) :
    pyStrip (strftimeDDMMYYYY y m d) = strftimeDDMMYYYY y m d :=
  pyStrip_clean _ (strftime_no_ws y m d)

lemma esFormaDDMMYYYY_strftime (y m d : Nat) :
    esFormaDDMMYYYY (strftimeDDMMYYYY y m d) = true := by
  show esFormaDDMMYYYY ⟨dosDigitos d ++ '/' :: (dosDigitos m ++ '/' :: cuatroDigitos y)⟩ =
    true
  simp only [esFormaDDMMYYYY, dosDigitos, cuatroDigitos, List.cons_append, List.nil_append]
  simp [digitChar_isDigit (Nat.mod_lt _ (by omega))]

/-- C10, counterexample to the claim as stated: on the empty input the two
implementations differ — `DataUtils.formatear_fecha` returns the empty
string while `GeneradorBase.formatear_fecha` returns the default date
01/01/1900. -/
theorem c10_counterexample :
    formatearFecha "" = "" ∧ formatearFechaBase "" = "01/01/1900" ∧
      formatearFecha "" ≠ formatearFechaBase "" := by
  refine ⟨rfl, rfl, ?_⟩
  decide

/-- C10 (amended): the two date-formatting implementations agree on every
valid calendar date rendered in zero-padded DD/MM/YYYY (both return it
unchanged), but they are NOT extensionally equal: on empty and on
unparseable inputs `DataUtils.formatear_fecha` yields the empty string
while `GeneradorBase.formatear_fecha` yields the default 01/01/1900. -/
theorem c10_formateadores (y m d : Nat) (hy1 : 1 ≤ y) (hy2 : y ≤ 9999) (hm1 : 1 ≤ m)
    (hm2 : m ≤ 12) (hd1 : 1 ≤ d) (hdm : d ≤ diasEnMes y m) :
    formatearFecha (strftimeDDMMYYYY y m d) = strftimeDDMMYYYY y m d ∧
    formatearFechaBase (strftimeDDMMYYYY y m d) = strftimeDDMMYYYY y m d ∧
    formatearFecha "" = "" ∧ formatearFechaBase "" = "01/01/1900" ∧
    formatearFecha "yz" = "" ∧ formatearFechaBase "yz" = "01/01/1900" := by
  have hstrip := pyStrip_strftime y m d
  have hne : pyStrip (strftimeDDMMYYYY y m d) ≠ "" := by
    rw [hstrip]
    intro h0
    have := congrArg (fun s => s.data.length) h0
    simp [strftimeDDMMYYYY, dosDigitos, cuatroDigitos] at this
  refine ⟨?_, ?_, rfl, rfl, by decide, by decide⟩
  · unfold formatearFecha
    rw [if_neg (by rw [hstrip]; exact fun h0 => hne (by rw [hstrip]; exact h0))]
    dsimp only
    rw [hstrip, esFormaDDMMYYYY_strftime]
    rfl
  · unfold formatearFechaBase
    have hlower : ∀ t : String, pyLower (pyStrip (strftimeDDMMYYYY y m d)) = t →
        (pyLower (pyStrip (strftimeDDMMYYYY y m d))).data.length = t.data.length := by
      intro t ht
      rw [ht]
    rw [if_neg ?hcond]
    case hcond =>
      rw [hstrip]
      rintro (h0 | h0 | h0) <;>
      · have := congrArg (fun s => s.data.length) h0
        simp [pyLower, strftimeDDMMYYYY, dosDigitos, cuatroDigitos] at this
    dsimp only
    rw [hstrip]
    show (match primerParse (strftimeDDMMYYYY y m d) formatosGeneradorBase with
      | some (y0, m0, d0) => strftimeDDMMYYYY y0 m0 d0
      | none => "01/01/1900") = strftimeDDMMYYYY y m d
    rw [show primerParse (strftimeDDMMYYYY y m d) formatosGeneradorBase =
        (match strptimeFecha fmtDMYbarra (strftimeDDMMYYYY y m d) with
         | some r => some r
         | none => primerParse (strftimeDDMMYYYY y m d)
            [fmtYMDguion, fmtDMYguion, fmtMDYbarra, fmtYMDbarra]) from rfl]
    rw [strptime_dmy_strftime y m d hy1 hy2 hm1 hm2 hd1 hdm]

/-- C10 witness: the theorem applied at the concrete date 17/05/2023. -/
theorem c10_formateadores_witness :
    formatearFecha (strftimeDDMMYYYY 2023 5 17) = strftimeDDMMYYYY 2023 5 17 ∧
      formatearFechaBase (strftimeDDMMYYYY 2023 5 17) = strftimeDDMMYYYY 2023 5 17 :=
  ⟨(c10_formateadores 2023 5 17 (by decide) (by decide) (by decide) (by decide)
      (by decide) (by decide)).1,
   (c10_formateadores 2023 5 17 (by decide) (by decide) (by decide) (by decide)
      (by decide) (by decide)).2.1⟩

/-!  C8: classification idempotence.  The helper lemmas show each written
field of `clasificar` is a fixed point under a second application. -/

lemma clasificarPropietario_casos (x : String) :
    clasificarPropietario x = "CENS" ∨ clasificarPropietario x = "ESTADO" ∨
      clasificarPropietario x = "COMPARTIDO" ∨ clasificarPropietario x = "PARTICULAR" := by
  unfold clasificarPropietario
  dsimp only
  split
  · simp
  · split
    · simp
    · split
      · simp
      · split
        · simp
        · simp

lemma clasificarPropietario_idem (x : String) :
    clasificarPropietario (clasificarPropietario x) = clasificarPropietario x := by
  rcases clasificarPropietario_casos x with h | h | h | h <;> rw [h] <;> decide

lemma convertirEstadoSalud_rango (x : String) :
    convertirEstadoSalud x = "" ∨ convertirEstadoSalud x = "BUENO" ∨
      convertirEstadoSalud x = "REGULAR" ∨ convertirEstadoSalud x = "MALO" := by
  unfold convertirEstadoSalud
  dsimp only
  split
  · exact Or.inl rfl
  · split
    · rename_i h
      rcases h with h | h | h
      · exact Or.inr (Or.inl h)
      · exact Or.inr (Or.inr (Or.inl h))
      · exact Or.inr (Or.inr (Or.inr h))
    · exact Or.inl rfl

lemma estadoSalud_punto_fijo (x : String) :
    convertirEstadoSalud (if convertirEstadoSalud x ≠ "" then convertirEstadoSalud x else x) =
        "" ∨
      convertirEstadoSalud (if convertirEstadoSalud x ≠ "" then convertirEstadoSalud x else x) =
        convertirEstadoSalud x := by
  by_cases h : convertirEstadoSalud x = ""
  · rw [if_neg (by simp [h]), h]
    exact Or.inr rfl
  · rw [if_pos h]
    rcases convertirEstadoSalud_rango x with h0 | h0 | h0 | h0
    · exact absurd h0 h
    all_goals
    · rw [h0]
      exact Or.inl (by decide)

lemma isDigit_no_ws (c : Char) (h : c.isDigit = true) : c.isWhitespace = false := by
  by_contra hws
  rw [Bool.not_eq_false] at hws
  simp only [Char.isWhitespace, Bool.or_eq_true, decide_eq_true_eq] at hws
  have hcs : c = ' ' ∨ c = '\t' ∨ c = '\r' ∨ c = '\n' := by tauto
  rcases hcs with rfl | rfl | rfl | rfl <;> exact absurd h (by decide)

lemma reemplazar_digitos (s : String) (h : ∀ c ∈ s.data, c.isDigit = true) :
    reemplazarComaPorPunto s = s := by
  have hmap : s.data.map (fun c => if c = ',' then '.' else c) = s.data := by
    conv_rhs => rw [← List.map_id s.data]
    apply List.map_congr_left
    intro c hc
    have hd := h c hc
    show (if c = ',' then '.' else c) = c
    rw [if_neg (by intro hc2; subst hc2; exact absurd hd (by decide))]
  show (⟨s.data.map (fun c => if c = ',' then '.' else c)⟩ : String) = s
  rw [hmap]

lemma esSoloDigitos_spec (s : String) (h : esSoloDigitos s = true) :
    s ≠ "" ∧ ∀ c ∈ s.data, c.isDigit = true := by
  unfold esSoloDigitos at h
  rw [Bool.and_eq_true] at h
  obtain ⟨h1, h2⟩ := h
  rw [Bool.not_eq_true'] at h1
  constructor
  · intro h0
    rw [h0] at h1
    exact absurd h1 (by decide)
  · rw [List.all_eq_true] at h2
    exact h2

lemma normalizar_de_digitos (s : String) (h : esSoloDigitos s = true) :
    normalizarCodigoMaterial s = s := by
  obtain ⟨hne, hd⟩ := esSoloDigitos_spec s h
  have hstrip : pyStrip s = s :=
    pyStrip_clean s (fun c hc => isDigit_no_ws c (hd c hc))
  have hrep : reemplazarComaPorPunto s = s := reemplazar_digitos s hd
  unfold normalizarCodigoMaterial
  dsimp only
  rw [hstrip, if_neg hne, hrep, h]
  rfl

lemma takeWhile_append_todos (p : Char → Bool) (l1 l2 : List Char)
    (h : ∀ c ∈ l1, p c = true) : (l1 ++ l2).takeWhile p = l1 ++ l2.takeWhile p := by
  induction l1 with
  | nil => simp
  | cons c resto ih =>
    have hc := h c (List.mem_cons_self c resto)
    simp only [List.cons_append, List.takeWhile_cons, hc, if_true]
    rw [ih (fun c0 hc0 => h c0 (List.mem_cons_of_mem c hc0))]

lemma parteEntera_digitos (s : String) (h : esEnteroPuntoCeros s = true) :
    esSoloDigitos (parteEntera s) = true := by
  unfold esEnteroPuntoCeros at h
  dsimp only at h
  rw [Bool.and_eq_true] at h
  obtain ⟨hne, hmatch⟩ := h
  split at hmatch
  case h_2 => exact absurd hmatch (by simp)
  case h_1 zs heq =>
    have hds : ∀ c ∈ s.data.takeWhile Char.isDigit, c.isDigit = true :=
      fun c hc => List.mem_takeWhile_imp hc
    have hsplit : s.data = s.data.takeWhile Char.isDigit ++ ('.' :: zs) := by
      rw [← heq, List.takeWhile_append_dropWhile]
    have htake : (parteEntera s).data = s.data.takeWhile Char.isDigit := by
      show s.data.takeWhile (fun c => !(c == '.')) = s.data.takeWhile Char.isDigit
      conv_lhs => rw [hsplit]
      rw [takeWhile_append_todos _ _ _ (fun c hc => by
        have hd := hds c hc
        simp only [Bool.not_eq_true', beq_eq_false_iff_ne, ne_eq]
        intro h0
        subst h0
        exact absurd hd (by decide))]
      simp [List.takeWhile_cons]
    unfold esSoloDigitos
    rw [htake, Bool.and_eq_true]
    refine ⟨hne, ?_⟩
    rw [List.all_eq_true]
    exact fun c hc => hds c hc

lemma normalizar_casos (v : String) :
    normalizarCodigoMaterial v = "" ∨
      esSoloDigitos (normalizarCodigoMaterial v) = true ∨
      (pyStrip v ≠ "" ∧
        esSoloDigitos (reemplazarComaPorPunto (pyStrip v)) = false ∧
        esEnteroPuntoCeros (reemplazarComaPorPunto (pyStrip v)) = false ∧
        normalizarCodigoMaterial v = pyStrip v) := by
  unfold normalizarCodigoMaterial
  dsimp only
  split
  · exact Or.inl rfl
  · rename_i hne
    split
    · rename_i hdig
      exact Or.inr (Or.inl hdig)
    · rename_i hdig
      split
      · rename_i hent
        exact Or.inr (Or.inl (parteEntera_digitos _ hent))
      · rename_i hent
        exact Or.inr (Or.inr ⟨hne, Bool.of_not_eq_true hdig,
          Bool.of_not_eq_true hent, rfl⟩)

lemma normalizar_idem (v : String) :
    normalizarCodigoMaterial (normalizarCodigoMaterial v) = normalizarCodigoMaterial v := by
  rcases normalizar_casos v with h | h | ⟨hne, hdig, hent, heq⟩
  · rw [h]
    rfl
  · exact normalizar_de_digitos _ h
  · rw [heq]
    unfold normalizarCodigoMaterial
    dsimp only
    rw [pyStrip_idem, if_neg hne, hdig, hent]
    rfl

lemma esFormaDDMMYYYY_noVacia (s : String) (h : esFormaDDMMYYYY s = true) : s ≠ "" := by
  intro h0
  rw [h0] at h
  exact absurd h (by decide)

lemma esFormaDDMMYYYY_digitos (s : String) (h : esFormaDDMMYYYY s = true) :
    ∀ c ∈ s.data, c.isWhitespace = false := by
  unfold esFormaDDMMYYYY at h
  split at h
  case h_2 => exact absurd h (by simp)
  case h_1 a b c d e f g i heq =>
    simp only [Bool.and_eq_true] at h
    obtain ⟨⟨⟨⟨⟨⟨⟨ha, hb⟩, hc⟩, hd⟩, he⟩, hf⟩, hg⟩, hi⟩ := h
    intro c0 hc0
    rw [heq] at hc0
    simp only [List.mem_cons, List.not_mem_nil, or_false] at hc0
    rcases hc0 with rfl | rfl | rfl | rfl | rfl | rfl | rfl | rfl | rfl | rfl
    · exact isDigit_no_ws _ ha
    · exact isDigit_no_ws _ hb
    · decide
    · exact isDigit_no_ws _ hc
    · exact isDigit_no_ws _ hd
    · decide
    · exact isDigit_no_ws _ he
    · exact isDigit_no_ws _ hf
    · exact isDigit_no_ws _ hg
    · exact isDigit_no_ws _ hi

lemma strftimeDDMMYYYY_noVacia (y m d : Nat) : strftimeDDMMYYYY y m d ≠ "" := by
  intro h0
  have := congrArg (fun s => s.data.length) h0
  simp [strftimeDDMMYYYY, dosDigitos, cuatroDigitos] at this

lemma formatearFecha_fija (s : String) (h : formatearFecha s ≠ "") :
    formatearFecha (formatearFecha s) = formatearFecha s := by
  by_cases h0 : pyStrip s = ""
  · exact absurd (by unfold formatearFecha; rw [if_pos h0]) h
  · by_cases h1 : esFormaDDMMYYYY (pyStrip s) = true
    · have hval : formatearFecha s = pyStrip s := by
        unfold formatearFecha
        rw [if_neg h0]
        dsimp only
        rw [h1]
        rfl
      rw [hval]
      unfold formatearFecha
      rw [if_neg (by rw [pyStrip_idem]; exact h0)]
      dsimp only
      rw [pyStrip_idem, h1]
      rfl
    · have hval : formatearFecha s =
          (match primerParse ⟨(pyStrip s).data.takeWhile (· ≠ ' ')⟩ formatosDataUtils with
           | some (y, m, d) => strftimeDDMMYYYY y m d
           | none => "") := by
        unfold formatearFecha
        rw [if_neg h0]
        dsimp only
        rw [if_neg h1]
      rcases hp : primerParse ⟨(pyStrip s).data.takeWhile (· ≠ ' ')⟩ formatosDataUtils with
        - | ⟨y, m, d⟩
      · rw [hp] at hval
        exact absurd hval h
      · rw [hp] at hval
        dsimp only at hval
        rw [hval]
        unfold formatearFecha
        rw [if_neg (by rw [pyStrip_strftime]; exact strftimeDDMMYYYY_noVacia y m d)]
        dsimp only
        rw [pyStrip_strftime, esFormaDDMMYYYY_strftime]
        rfl

lemma natDigitos_rep : ∀ (n : Nat), ∀ c ∈ natDigitos n, ∃ k, k < 10 ∧ c = Nat.digitChar k := by
  intro n
  induction n using Nat.strong_induction_on with
  | _ n ih =>
    intro c hc
    unfold natDigitos at hc
    split at hc
    · rename_i h10
      simp only [List.mem_singleton] at hc
      exact ⟨n, h10, hc⟩
    · rename_i h10
      rw [List.mem_append] at hc
      rcases hc with hc | hc
      · exact ih (n / 10) (Nat.div_lt_self (by omega) (by omega)) c hc
      · simp only [List.mem_singleton] at hc
        exact ⟨n % 10, Nat.mod_lt _ (by omega), hc⟩

lemma tns_data (n : Nat) : ("T" ++ natToStr n).data = 'T' :: natDigitos n := by
  show ("T".data ++ (natToStr n).data) = 'T' :: natDigitos n
  rfl

lemma tns_props (n : Nat) :
    ∀ c ∈ ("T" ++ natToStr n).data,
      c.isWhitespace = false ∧ c.toUpper = c ∧ esCharRomano c = false ∧
        valorRomano c = 0 := by
  intro c hc
  rw [tns_data] at hc
  rcases List.mem_cons.mp hc with rfl | hc
  · exact ⟨by decide, by decide, by decide, by decide⟩
  · obtain ⟨k, hk, rfl⟩ := natDigitos_rep n c hc
    interval_cases k <;> exact ⟨by decide, by decide, by decide, by decide⟩

lemma pyUpper_id (s : String) (h : ∀ c ∈ s.data, c.toUpper = c) : pyUpper s = s := by
  have hmap : s.data.map Char.toUpper = s.data := by
    conv_rhs => rw [← List.map_id s.data]
    exact List.map_congr_left h
  show (⟨s.data.map Char.toUpper⟩ : String) = s
  rw [hmap]

lemma runsRomanas_sinRomanos :
    ∀ (l : List Char), (∀ c ∈ l, esCharRomano c = false) → runsRomanas l [] = [] := by
  intro l
  induction l with
  | nil => intro _; rfl
  | cons c resto ih =>
    intro h
    unfold runsRomanas
    rw [h c (List.mem_cons_self c resto)]
    rw [if_neg (by decide)]
    rw [if_pos (show ([] : List Char).isEmpty = true from rfl)]
    exact ih (fun c0 hc0 => h c0 (List.mem_cons_of_mem c hc0))

lemma romanAcum_ceros :
    ∀ (l : List Char), (∀ c ∈ l, valorRomano c = 0) → ∀ t p, (romanAcum l (t, p)).1 = t := by
  intro l
  induction l with
  | nil => intro _ t p; rfl
  | cons c resto ih =>
    intro h t p
    unfold romanAcum
    rw [h c (List.mem_cons_self c resto)]
    dsimp only
    split
    · rw [show t - 0 = t from by omega]
      exact ih (fun c0 hc0 => h c0 (List.mem_cons_of_mem c hc0)) t p
    · rw [show t + 0 = t from by omega]
      exact ih (fun c0 hc0 => h c0 (List.mem_cons_of_mem c hc0)) t 0

lemma ne_por_cabeza (s t : String) (c1 c2 : Char) (h1 : s.data.head? = some c1)
    (h2 : t.data.head? = some c2) (hne : c1 ≠ c2) : s ≠ t := by
  intro h0
  rw [h0, h2] at h1
  exact hne (Option.some.inj h1).symm

lemma convertir_T (n : Nat) (_hn : 1 ≤ n) :
    convertirTipoProyecto ("T" ++ natToStr n) = "T" ++ natToStr n := by
  have hprops := tns_props n
  have hne0 : ("T" ++ natToStr n) ≠ "" := by
    intro h0
    have := congrArg String.data h0
    rw [tns_data] at this
    exact absurd this (by simp)
  have hstrip : pyStrip ("T" ++ natToStr n) = "T" ++ natToStr n :=
    pyStrip_clean _ (fun c hc => (hprops c hc).1)
  have hupper : pyUpper ("T" ++ natToStr n) = "T" ++ natToStr n :=
    pyUpper_id _ (fun c hc => (hprops c hc).2.1)
  have hruns : runsRomanas ("T" ++ natToStr n).data [] = [] :=
    runsRomanas_sinRomanos _ (fun c hc => (hprops c hc).2.2.1)
  have hhead : ("T" ++ natToStr n).data.head? = some 'T' := by
    rw [tns_data]
    rfl
  have hbuscar : buscar CONVERSION_TIPO_PROYECTO ("T" ++ natToStr n) = none := by
    have hI : ("I" : String) ≠ ("T" ++ natToStr n) :=
      ne_por_cabeza _ _ 'I' 'T' rfl hhead (by decide)
    have hII : ("II" : String) ≠ ("T" ++ natToStr n) :=
      ne_por_cabeza _ _ 'I' 'T' rfl hhead (by decide)
    have hIII : ("III" : String) ≠ ("T" ++ natToStr n) :=
      ne_por_cabeza _ _ 'I' 'T' rfl hhead (by decide)
    have hIV : ("IV" : String) ≠ ("T" ++ natToStr n) :=
      ne_por_cabeza _ _ 'I' 'T' rfl hhead (by decide)
    simp [CONVERSION_TIPO_PROYECTO, buscar, hI, hII, hIII, hIV]
  have hroman : romanToInt ("T" ++ natToStr n) = 0 := by
    unfold romanToInt
    rw [hstrip, hupper]
    exact romanAcum_ceros _ (fun c hc => (hprops c (List.mem_reverse.mp hc)).2.2.2) 0 0
  unfold convertirTipoProyecto
  rw [if_neg hne0]
  dsimp only
  rw [hstrip, hupper, hruns]
  dsimp only [maxPorLongitud, List.foldl]
  rw [hbuscar]
  dsimp only
  rw [hroman]
  rw [if_neg (by decide)]

lemma buscar_conversion_valores (k v : String)
    (h : buscar CONVERSION_TIPO_PROYECTO k = some v) :
    v = "T1" ∨ v = "T2" ∨ v = "T3" ∨ v = "T4" := by
  simp only [CONVERSION_TIPO_PROYECTO, buscar] at h
  split_ifs at h
  · exact Or.inl (Option.some.inj h).symm
  · exact Or.inr (Or.inl (Option.some.inj h).symm)
  · exact Or.inr (Or.inr (Or.inl (Option.some.inj h).symm))
  · exact Or.inr (Or.inr (Or.inr (Option.some.inj h).symm))

lemma convertir_casos (x : String) :
    convertirTipoProyecto x = x ∨
      (convertirTipoProyecto x = "T1" ∨ convertirTipoProyecto x = "T2" ∨
        convertirTipoProyecto x = "T3" ∨ convertirTipoProyecto x = "T4") ∨
      ∃ n, 1 ≤ n ∧ convertirTipoProyecto x = "T" ++ natToStr n := by
  unfold convertirTipoProyecto
  split
  · exact Or.inl rfl
  · dsimp only
    split
    · rename_i t hb
      exact Or.inr (Or.inl (buscar_conversion_valores _ t hb))
    · split
      · rename_i hv
        refine Or.inr (Or.inr ⟨(romanToInt _).toNat, by omega, rfl⟩)
      · exact Or.inl rfl

lemma convertir_idem (x : String) :
    convertirTipoProyecto (convertirTipoProyecto x) = convertirTipoProyecto x := by
  rcases convertir_casos x with h | h | ⟨n, hn, h⟩
  · rw [h, h]
  · rcases h with h | h | h | h <;> rw [h] <;> decide
  · rw [h]
    exact convertir_T n hn

lemma pyStrip_convertir (x : String) :
    pyStrip (convertirTipoProyecto (pyStrip x)) = convertirTipoProyecto (pyStrip x) := by
  rcases convertir_casos (pyStrip x) with h | h | ⟨n, hn, h⟩
  · rw [h, pyStrip_idem]
  · rcases h with h | h | h | h <;> rw [h] <;> decide
  · rw [h]
    exact pyStrip_clean _ (fun c hc => (tns_props n c hc).1)

lemma clasificar_grupo (now : String) (r : Registro) :
    (clasificar now r).grupo = "ESTRUCTURAS EYT" := by simp [clasificar]

lemma clasificar_clase (now : String) (r : Registro) :
    (clasificar now r).clase = "POSTE" := by simp [clasificar]

lemma clasificar_uso (now : String) (r : Registro) :
    (clasificar now r).uso = "DISTRIBUCION ENERGIA" := by simp [clasificar]

lemma clasificar_porcentaje (now : String) (r : Registro) :
    (clasificar now r).porcentajePropiedad = "100" := by simp [clasificar]

lemma clasificar_version (now : String) (r : Registro) :
    (clasificar now r).versionReglas = "2.5" := by simp [clasificar]

lemma clasificar_fechaClas (now : String) (r : Registro) :
    (clasificar now r).fechaClasificacion = now := by simp [clasificar]

lemma clasificar_uc (now : String) (r : Registro) :
    (clasificar now r).uc = r.uc := by simp [clasificar]

lemma clasificar_nivel (now : String) (r : Registro) :
    (clasificar now r).nivelTension = r.nivelTension := by simp [clasificar]

lemma clasificar_tpExcel (now : String) (r : Registro) :
    (clasificar now r).tipoProyectoExcel = r.tipoProyectoExcel := by simp [clasificar]

lemma clasificar_cmFlag (now : String) (r : Registro) :
    (clasificar now r).cmFromExcel = r.cmFromExcel := by simp [clasificar]

lemma clasificar_propietario (now : String) (r : Registro) :
    (clasificar now r).propietario = clasificarPropietario r.propietario := by
  simp [clasificar]

lemma clasificar_tipo (now : String) (r : Registro) :
    (clasificar now r).tipo = clasificarTipoPorUc (pyUpper (pyStrip r.uc)) := by
  simp [clasificar]

lemma clasificar_tipoProyecto (now : String) (r : Registro) :
    (clasificar now r).tipoProyecto =
      (if generarTipoProyectoDesdeNivelTension
          (if pyStrip r.nivelTension ≠ "" then pyStrip r.nivelTension else pyStrip r.uc) ≠ ""
       then
        generarTipoProyectoDesdeNivelTension
          (if pyStrip r.nivelTension ≠ "" then pyStrip r.nivelTension else pyStrip r.uc)
       else convertirTipoProyecto (pyStrip r.tipoProyecto)) := by
  simp [clasificar]

lemma clasificar_fi (now : String) (r : Registro) :
    (clasificar now r).fechaInstalacion =
      (if r.fechaInstalacion ≠ "" then formatearFecha r.fechaInstalacion
       else r.fechaInstalacion) := by
  simp [clasificar]

lemma clasificar_fo (now : String) (r : Registro) :
    (clasificar now r).fechaOperacion =
      (if r.fechaInstalacion ≠ "" then formatearFecha r.fechaInstalacion
       else r.fechaOperacion) := by
  simp [clasificar]

lemma clasificar_cm (now : String) (r : Registro) :
    (clasificar now r).codigoMaterial =
      (if normalizarCodigoMaterial r.codigoMaterial ≠ "" then
        normalizarCodigoMaterial r.codigoMaterial
       else if r.cmFromExcel = false ∧ asignarCodigoMaterial (pyStrip r.uc) ≠ "" then
        normalizarCodigoMaterial (asignarCodigoMaterial (pyStrip r.uc))
       else r.codigoMaterial) := by
  simp [clasificar]

lemma clasificar_es (now : String) (r : Registro) :
    (clasificar now r).estadoSalud =
      (if convertirEstadoSalud r.estadoSalud ≠ "" then convertirEstadoSalud r.estadoSalud
       else r.estadoSalud) := by
  simp [clasificar]

lemma clasificar_obs (now : String) (r : Registro) :
    (clasificar now r).observaciones =
      (if pyStrip r.observaciones = "" then "" else r.observaciones) := by
  simp [clasificar]

attribute [ext] Registro

/-- Erase the classification audit-trail field
(`OBSERVACION_CLASIFICACION_SISTEMA`). -/
def borrarObsSistema (r : Registro) : Registro := { r with obsSistema := "" }

lemma borrarObs_fi (x : Registro) :
    (borrarObsSistema x).fechaInstalacion = x.fechaInstalacion := rfl

lemma borrarObs_fo (x : Registro) :
    (borrarObsSistema x).fechaOperacion = x.fechaOperacion := rfl

lemma borrarObs_cm (x : Registro) :
    (borrarObsSistema x).codigoMaterial = x.codigoMaterial := rfl

lemma borrarObs_es (x : Registro) :
    (borrarObsSistema x).estadoSalud = x.estadoSalud := rfl

lemma borrarObs_obs (x : Registro) :
    (borrarObsSistema x).observaciones = x.observaciones := rfl

lemma borrarObs_tp (x : Registro) :
    (borrarObsSistema x).tipoProyecto = x.tipoProyecto := rfl

set_option maxRecDepth 10000 in
/-- C8, counterexample to the claim as stated: for a record whose
PROJECT_TYPE originated from the spreadsheet investment-type column (T2,
with the Excel backup marker set) and whose health status is 1, the second
classification pass produces a different record — the audit field loses the
health-status conversion note that the first pass recorded. -/
theorem c8_counterexample :
    clasificar "2025-11-05T08:03:46"
        (clasificar "2025-11-05T08:03:46"
          { Registro.vacio with
            tipoProyecto := "T2", tipoProyectoExcel := "T2", estadoSalud := "1",
            cmFromExcel := true }) ≠
      clasificar "2025-11-05T08:03:46"
        { Registro.vacio with
          tipoProyecto := "T2", tipoProyectoExcel := "T2", estadoSalud := "1",
          cmFromExcel := true } := by
  decide

/-- C8 (amended): with the wall-clock timestamp fixed, applying the
classifier twice reproduces the first output on every field except the
audit trail `OBSERVACION_CLASIFICACION_SISTEMA` (conversion notes such as
the health-status one are only emitted on the pass that performs the
conversion), for every record — in particular for records whose
PROJECT_TYPE originated from the spreadsheet investment-type column. -/
theorem c8_idempotencia (now : String) (r : Registro) :
    borrarObsSistema (clasificar now (clasificar now r)) =
      borrarObsSistema (clasificar now r) := by
  apply Registro.ext
  · simp [borrarObsSistema, clasificar_grupo]
  · simp [borrarObsSistema, clasificar_clase]
  · simp [borrarObsSistema, clasificar_uso]
  · simp [borrarObsSistema, clasificar_porcentaje]
  · simp [borrarObsSistema, clasificar_propietario, clasificarPropietario_idem]
  · simp [borrarObsSistema, clasificar_tipo, clasificar_uc]
  · -- tipoProyecto
    simp only [borrarObs_tp, clasificar_tipoProyecto, clasificar_nivel, clasificar_uc]
    by_cases hg : generarTipoProyectoDesdeNivelTension
        (if pyStrip r.nivelTension ≠ "" then pyStrip r.nivelTension else pyStrip r.uc) = ""
    · simp only [if_neg (not_not_intro hg)]
      rw [pyStrip_convertir, convertir_idem]
    · rw [if_pos hg, if_pos hg]
  · simp [borrarObsSistema, clasificar_tpExcel]
  · simp [borrarObsSistema, clasificar_nivel]
  · simp [borrarObsSistema, clasificar_uc]
  · -- fechaInstalacion
    simp only [borrarObs_fi, clasificar_fi]
    by_cases h0 : r.fechaInstalacion = ""
    · simp [h0]
    · by_cases h1 : formatearFecha r.fechaInstalacion = ""
      · simp [h0, h1]
      · simp [h0, h1, formatearFecha_fija r.fechaInstalacion h1]
  · -- fechaOperacion
    simp only [borrarObs_fo, clasificar_fo, clasificar_fi]
    by_cases h0 : r.fechaInstalacion = ""
    · simp [h0]
    · by_cases h1 : formatearFecha r.fechaInstalacion = ""
      · simp [h0, h1]
      · simp [h0, h1, formatearFecha_fija r.fechaInstalacion h1]
  · -- codigoMaterial
    simp only [borrarObs_cm, clasificar_cm, clasificar_cmFlag, clasificar_uc]
    by_cases hA : normalizarCodigoMaterial r.codigoMaterial = ""
    · by_cases hB : r.cmFromExcel = false ∧
          asignarCodigoMaterial (pyStrip r.uc) ≠ ""
      · by_cases hC : normalizarCodigoMaterial (asignarCodigoMaterial (pyStrip r.uc)) = ""
        · simp [hA, hB, hC, normalizar_idem, show normalizarCodigoMaterial "" = "" from rfl]
        · simp [hA, hB, hC, normalizar_idem]
      · simp [hA, hB, normalizar_idem]
    · simp [hA, normalizar_idem]
  · simp [borrarObsSistema, clasificar_cmFlag]
  · -- estadoSalud
    simp only [borrarObs_es, clasificar_es]
    rcases estadoSalud_punto_fijo r.estadoSalud with h | h
    · rw [h]
      simp
    · rw [h]
      by_cases hc : convertirEstadoSalud r.estadoSalud = ""
      · rw [hc]
        simp
      · simp [hc]
  · -- observaciones
    simp only [borrarObs_obs, clasificar_obs]
    by_cases h : pyStrip r.observaciones = ""
    · simp [h]
    · simp [h]
  · simp [borrarObsSistema]
  · simp [borrarObsSistema, clasificar_fechaClas]
  · simp [borrarObsSistema, clasificar_version]

end CargueMasivo
